import Mathlib

/-!
# Tetris Stack: piece queue, reserve stack and single-level undo

A shallow embedding of `src/tetris.c` and the properties proved about it.

Conventions of the embedding.

* C `int` values (`frente`, `count`, `top`, `id`, loop counters) are Lean `Int`.
  `%` and `/` are C's truncating operators, `Int.tmod` and `Int.tdiv`.  On valid
  structures no index computation leaves the range of `int`.  The one counter
  that does is `next_id`: `next_id++` is stored through `int32`, the
  two's-complement wrap-around to 32 bits.
* The arrays `dados[FILA_CAP]` and `dados[PILHA_CAP]` are lists of that length;
  a C index expression `e` reads with `List.getD _ e.toNat default` and writes
  with `List.set _ e.toNat`.
* A C function that mutates `*f`, `*s`, `*undo` returns the new values.  An out
  parameter `Peca *out` is passed in (its old content) and returned; a caller
  reads the results of a call `c` as `c.1` (the `bool`), `c.2.1`, `c.2.2`.  A
  local `Peca x;` handed over as `&x` starts as the default piece.
* `rand()` is an argument: the value the call would return.
* `printf` is modelled by the list of messages a call prints, see `Msg`.
-/

namespace Tetris

/-! ## Data model (tetris.c lines 10-56) -/

abbrev FILA_CAP : Int := 5
abbrev PILHA_CAP : Int := 3

/-- The piece kinds, `TIPOS[]` of the source. -/
def TIPOS : List String := ["I", "O", "T", "L", "J", "S", "Z"]
abbrev NUM_TIPOS : Nat := 7

/-- A piece: `struct Peca`. -/
structure Peca where
  nome : String
  id : Int
deriving DecidableEq, Repr, Inhabited

/-- Circular queue: `struct Fila`. -/
structure Fila where
  dados : List Peca
  frente : Int
  count : Int
deriving DecidableEq, Repr

/-- Reserve stack: `struct Pilha`; `top = -1` when empty. -/
structure Pilha where
  dados : List Peca
  top : Int
deriving DecidableEq, Repr

/-- The tags of the last action: `enum AcaoUltima`. -/
inductive AcaoUltima where
  | A_NENHUMA
  | A_PLAY
  | A_RESERVE
  | A_USE_RESERVED
  | A_SWAP
  | A_INVERT
deriving DecidableEq, Repr

open AcaoUltima

/-- The undo record: `struct UndoInfo`. -/
structure UndoInfo where
  acao : AcaoUltima
  peca_played : Peca
  had_new_enqueued : Bool
  new_enqueued : Peca
  swap_fila : Peca
  swap_pilha : Peca
deriving DecidableEq, Repr

/-- The state of `gerarPeca`: its `static int next_id`.  The field `emitidas`
is not a program variable: it is the history of the pieces the generator has
returned so far, oldest first, kept so that properties of "all pieces ever
generated" can be stated. -/
structure Gerador where
  next_id : Int
  emitidas : List Peca
deriving DecidableEq, Repr

/-- Everything a session owns: the locals `fila`, `pilha`, `undo` of `main`
and the generator's static counter. -/
structure Sessao where
  fila : Fila
  pilha : Pilha
  undo : UndoInfo
  ger : Gerador
deriving DecidableEq, Repr

/-- The lines the core functions print, one constructor per `printf` call site
(the pieces are the ones whose name and id are printed). -/
inductive Msg where
  /-- Prints "Fila vazia! Nao ha peça para jogar." -/
  | jogar_fila_vazia
  /-- Prints "Voce jogou a peça: %s (id:%d)" -/
  | jogou (p : Peca)
  /-- Prints "Nova peca gerada e enfileirada: %s (id:%d)" (play) -/
  | jogar_nova (p : Peca)
  /-- Prints "Aviso: nao foi possivel enfileirar nova peca automaticamente." -/
  | jogar_aviso_sem_nova
  /-- Prints "Pilha cheia! Nao e possivel reservar mais peças." -/
  | reservar_pilha_cheia
  /-- Prints "Fila vazia! Nao ha peça para reservar." -/
  | reservar_fila_vazia
  /-- Prints "Peca reservada: %s (id:%d)" -/
  | reservada (p : Peca)
  /-- Prints "Erro ao empilhar." -/
  | reservar_erro_empilhar
  /-- Prints "Nova peca enfileirada: %s (id:%d)" (reserve) -/
  | reservar_nova (p : Peca)
  /-- Prints "Pilha vazia! Nao ha peça reservada para usar." -/
  | usar_pilha_vazia
  /-- Prints "Voce usou a peca reservada: %s (id:%d)" -/
  | usou (p : Peca)
  /-- Prints "Nova peca gerada e enfileirada: %s (id:%d)" (use reserved) -/
  | usar_nova (p : Peca)
  /-- Prints "Pilha vazia! Nada para trocar." -/
  | swap_pilha_vazia
  /-- Prints "Fila vazia! Nada para trocar." -/
  | swap_fila_vazia
  /-- Prints "Swap realizado ..." with the new front and the new top. -/
  | swap_realizado (frente topo : Peca)
  /-- Prints "Operacao Inverter executada ..." -/
  | invert_executada
  /-- Prints "Nada para desfazer." -/
  | nada_para_desfazer
  /-- Prints "Erro ao desfazer: nao foi possivel reinserir a peca na frente." -/
  | undo_play_erro_reinserir
  /-- Prints "Desfeito PLAY: nova peca removida (id:%d) e peca jogada recolocada na frente (id:%d)" -/
  | undo_play_ok (tail played : Peca)
  /-- Prints "Erro ao desfazer PLAY: fila nao tem tail para remover." -/
  | undo_play_erro_sem_tail
  /-- Prints "Desfeito PLAY: peca recolocada na frente (id:%d)" -/
  | undo_play_ok_sem_nova (played : Peca)
  /-- Prints "Erro ao desfazer PLAY." -/
  | undo_play_erro
  /-- Prints "Erro ao desfazer RESERVE: nao foi possivel recolocar na fila." -/
  | undo_reserve_erro_recolocar
  /-- Prints "Desfeito RESERVE: peca recolocada na frente (id:%d) e nova peca removida (id:%d)" -/
  | undo_reserve_ok (top tail : Peca)
  /-- Prints "Desfeito RESERVE: peca recolocada na frente (id:%d)" -/
  | undo_reserve_ok_sem_nova (top : Peca)
  /-- Prints "Erro ao desfazer RESERVE: pilha vazia inesperadamente." -/
  | undo_reserve_erro_pop
  /-- Prints "Erro ao desfazer RESERVE: pilha vazia (nada para desempilhar)." -/
  | undo_reserve_erro_pilha_vazia
  /-- Prints "Desfeito USE_RESERVED: peca recolocada na pilha (id:%d) e nova peca removida (id:%d)" -/
  | undo_usar_ok (played tail : Peca)
  /-- Prints "Erro ao desfazer USE_RESERVED: pilha cheia, nao foi possivel recolocar." -/
  | undo_usar_erro_pilha_cheia_tail
  /-- Prints "Erro ao desfazer USE_RESERVED: nao havia nova peca para remover." -/
  | undo_usar_erro_sem_tail
  /-- Prints "Desfeito USE_RESERVED: peca recolocada na pilha (id:%d)" -/
  | undo_usar_ok_sem_nova (played : Peca)
  /-- Prints "Erro ao desfazer USE_RESERVED: pilha cheia." -/
  | undo_usar_erro_pilha_cheia
  /-- Prints "Desfeito SWAP: pecas restauradas." -/
  | undo_swap_ok
  /-- Prints "Erro ao desfazer SWAP: estrutura(es) vazia(s)." -/
  | undo_swap_erro
  /-- Prints "Desfeito INVERT: ordem restaurada." -/
  | undo_invert_ok
deriving DecidableEq, Repr

/-! ## Piece generator (lines 87-95) -/

/-- The value an `int` variable holds once the arithmetic result `x` is stored in
it: two's-complement wrap-around to 32 bits, so `int32 2147483648 = -2147483648`.
(The C standard leaves signed overflow undefined; wrap-around is what the
compiled program does.) -/
def int32 (x : Int) : Int := (x + 2147483648) % 4294967296 - 2147483648

/-- Source function `gerarPeca`: kind `TIPOS[rand() % NUM_TIPOS]`, id `next_id++`
on the `static int next_id`. -/
def gerarPeca (g : Gerador) (r : Nat) : Peca × Gerador :=
  let p : Peca := { nome := TIPOS.getD (r % NUM_TIPOS) "", id := g.next_id }
  (p, { next_id := int32 (g.next_id + 1), emitidas := g.emitidas ++ [p] })

/-! ## Queue (lines 98-157) -/

def fila_inicializar (f : Fila) : Fila :=
  { f with frente := 0, count := 0 }

def fila_esta_cheia (f : Fila) : Bool := f.count == FILA_CAP

def fila_esta_vazia (f : Fila) : Bool := f.count == 0

/-- Source function `fila_enfileirar`: append at the tail. -/
def fila_enfileirar (f : Fila) (p : Peca) : Bool × Fila :=
  if fila_esta_cheia f then (false, f)
  else
    let tail := Int.tmod (f.frente + f.count) FILA_CAP
    (true, { f with dados := f.dados.set tail.toNat p, count := f.count + 1 })

/-- Source function `fila_desenfileirar`: remove from the front into `*out`. -/
def fila_desenfileirar (f : Fila) (out : Peca) : Bool × Fila × Peca :=
  if fila_esta_vazia f then (false, f, out)
  else
    (true,
     { f with frente := Int.tmod (f.frente + 1) FILA_CAP, count := f.count - 1 },
     f.dados.getD f.frente.toNat default)

/-- Source function `fila_dequeue_tail`: remove the last element into `*out`. -/
def fila_dequeue_tail (f : Fila) (out : Peca) : Bool × Fila × Peca :=
  if fila_esta_vazia f then (false, f, out)
  else
    let tail := Int.tmod (f.frente + f.count - 1 + FILA_CAP) FILA_CAP
    (true, { f with count := f.count - 1 }, f.dados.getD tail.toNat default)

/-- Source function `fila_enqueue_front`: insert before the front. -/
def fila_enqueue_front (f : Fila) (p : Peca) : Bool × Fila :=
  if fila_esta_cheia f then (false, f)
  else
    let frente := Int.tmod (f.frente - 1 + FILA_CAP) FILA_CAP
    (true, { dados := f.dados.set frente.toNat p, frente := frente, count := f.count + 1 })

/-- Source function `fila_mostrar`: the pieces it prints, in the order printed (front to tail). -/
def fila_mostrar (f : Fila) : List Peca :=
  (List.range f.count.toNat).map fun (i : Nat) =>
    f.dados.getD (Int.tmod (f.frente + (i : Int)) FILA_CAP).toNat default

/-! ## Stack (lines 160-195) -/

def pilha_inicializar (s : Pilha) : Pilha := { s with top := -1 }

def pilha_esta_cheia (s : Pilha) : Bool := s.top == PILHA_CAP - 1

def pilha_esta_vazia (s : Pilha) : Bool := s.top == -1

def pilha_push (s : Pilha) (p : Peca) : Bool × Pilha :=
  if pilha_esta_cheia s then (false, s)
  else
    let top := s.top + 1
    (true, { dados := s.dados.set top.toNat p, top := top })

def pilha_pop (s : Pilha) (out : Peca) : Bool × Pilha × Peca :=
  if pilha_esta_vazia s then (false, s, out)
  else (true, { s with top := s.top - 1 }, s.dados.getD s.top.toNat default)

/-- Source function `pilha_mostrar`: the pieces it prints, in the order printed (top to bottom,
`i = top` down to `0`). -/
def pilha_mostrar (s : Pilha) : List Peca :=
  ((List.range (s.top + 1).toNat).map fun (i : Nat) => s.dados.getD i default).reverse

/-- The stack read from the bottom to the top. -/
def pilha_base_topo (s : Pilha) : List Peca := (pilha_mostrar s).reverse

/-! ## Actions (lines 207-341) -/

/-- Source function `fazer_jogar`: play the front piece and enqueue a fresh one. -/
def fazer_jogar (r : Nat) (st : Sessao) : Sessao × List Msg :=
  if fila_esta_vazia st.fila then (st, [Msg.jogar_fila_vazia])
  else
    let deq := fila_desenfileirar st.fila default
    let played := deq.2.2
    let ger := gerarPeca st.ger r
    let nova := ger.1
    let enf := fila_enfileirar deq.2.1 nova
    let enq := enf.1
    ({ fila := enf.2, pilha := st.pilha,
       undo := { acao := A_PLAY, peca_played := played, had_new_enqueued := enq,
                 new_enqueued := if enq then nova else st.undo.new_enqueued,
                 swap_fila := st.undo.swap_fila, swap_pilha := st.undo.swap_pilha },
       ger := ger.2 },
     [Msg.jogou played, if enq then Msg.jogar_nova nova else Msg.jogar_aviso_sem_nova])

/-- Source function `fazer_reservar`: move the front piece to the stack and enqueue a fresh one. -/
def fazer_reservar (r : Nat) (st : Sessao) : Sessao × List Msg :=
  if pilha_esta_cheia st.pilha then (st, [Msg.reservar_pilha_cheia])
  else if fila_esta_vazia st.fila then (st, [Msg.reservar_fila_vazia])
  else
    let deq := fila_desenfileirar st.fila default
    let front := deq.2.2
    let psh := pilha_push st.pilha front
    let pushed := psh.1
    let ger := gerarPeca st.ger r
    let nova := ger.1
    let enf := fila_enfileirar deq.2.1 nova
    let enq := enf.1
    ({ fila := enf.2, pilha := psh.2,
       undo := { acao := A_RESERVE, peca_played := front, had_new_enqueued := enq,
                 new_enqueued := if enq then nova else st.undo.new_enqueued,
                 swap_fila := st.undo.swap_fila, swap_pilha := st.undo.swap_pilha },
       ger := ger.2 },
     (if pushed then Msg.reservada front else Msg.reservar_erro_empilhar)
       :: (if enq then [Msg.reservar_nova nova] else []))

/-- Source function `fazer_usar_reservada`: pop the stack top (consumed) and enqueue a fresh piece. -/
def fazer_usar_reservada (r : Nat) (st : Sessao) : Sessao × List Msg :=
  if pilha_esta_vazia st.pilha then (st, [Msg.usar_pilha_vazia])
  else
    let pop := pilha_pop st.pilha default
    let top := pop.2.2
    let ger := gerarPeca st.ger r
    let nova := ger.1
    let enf := fila_enfileirar st.fila nova
    let enq := enf.1
    ({ fila := enf.2, pilha := pop.2.1,
       undo := { acao := A_USE_RESERVED, peca_played := top, had_new_enqueued := enq,
                 new_enqueued := if enq then nova else st.undo.new_enqueued,
                 swap_fila := st.undo.swap_fila, swap_pilha := st.undo.swap_pilha },
       ger := ger.2 },
     Msg.usou top :: (if enq then [Msg.usar_nova nova] else []))

/-- Source function `fazer_swap`: exchange the queue front with the stack top, in place. -/
def fazer_swap (st : Sessao) : Sessao × List Msg :=
  if pilha_esta_vazia st.pilha then (st, [Msg.swap_pilha_vazia])
  else if fila_esta_vazia st.fila then (st, [Msg.swap_fila_vazia])
  else
    let top := st.pilha.dados.getD st.pilha.top.toNat default
    let front := st.fila.dados.getD st.fila.frente.toNat default
    let u1 : UndoInfo := { st.undo with acao := A_SWAP, swap_fila := front, swap_pilha := top }
    let s1 : Pilha := { st.pilha with dados := st.pilha.dados.set st.pilha.top.toNat front }
    let f1 : Fila := { st.fila with dados := st.fila.dados.set st.fila.frente.toNat top }
    ({ fila := f1, pilha := s1, undo := u1, ger := st.ger },
     [Msg.swap_realizado (f1.dados.getD f1.frente.toNat default)
        (s1.dados.getD s1.top.toNat default)])

/-- One iteration of an in-place exchange: `tmp = d[a]; d[a] = d[b]; d[b] = tmp`. -/
def trocar (d : List Peca) (a b : Int) : List Peca :=
  let tmp := d.getD a.toNat default
  (d.set a.toNat (d.getD b.toNat default)).set b.toNat tmp

/-- The loop that reverses the queue (lines 324-330, again 455-461):
`for (i = 0; i < count / 2; i++)` exchanging `idx1` and `idx2`. -/
def inverter_fila (f : Fila) : Fila :=
  { f with
    dados := (List.range (Int.tdiv f.count 2).toNat).foldl
      (fun d (i : Nat) =>
        let idx1 := Int.tmod (f.frente + (i : Int)) FILA_CAP
        let idx2 := Int.tmod (f.frente + f.count - 1 - (i : Int) + FILA_CAP) FILA_CAP
        trocar d idx1 idx2)
      f.dados }

/-- The loop that reverses the stack (lines 333-338, again 463-468):
`for (i = 0; i < (top + 1) / 2; i++)` exchanging `i` and `top - i`. -/
def inverter_pilha (s : Pilha) : Pilha :=
  { s with
    dados := (List.range (Int.tdiv (s.top + 1) 2).toNat).foldl
      (fun d (i : Nat) => trocar d (i : Int) (s.top - (i : Int)))
      s.dados }

/-- Source function `fazer_invert`: reverse the queue and the stack. -/
def fazer_invert (st : Sessao) : Sessao × List Msg :=
  ({ fila := inverter_fila st.fila, pilha := inverter_pilha st.pilha,
     undo := { st.undo with acao := A_INVERT }, ger := st.ger },
   [Msg.invert_executada])

/-! ## Undo (lines 344-479) -/

/-- Branch `case A_PLAY` of `desfazer` (lines 351-377). -/
def desfazer_play (f : Fila) (s : Pilha) (undo : UndoInfo) : Fila × Pilha × List Msg :=
  if undo.had_new_enqueued then
    let deq := fila_dequeue_tail f default
    let tail := deq.2.2
    if deq.1 then
      let enf := fila_enqueue_front deq.2.1 undo.peca_played
      if !enf.1 then
        ((fila_enfileirar enf.2 tail).2, s, [Msg.undo_play_erro_reinserir])
      else (enf.2, s, [Msg.undo_play_ok tail undo.peca_played])
    else (deq.2.1, s, [Msg.undo_play_erro_sem_tail])
  else
    let enf := fila_enqueue_front f undo.peca_played
    if enf.1 then (enf.2, s, [Msg.undo_play_ok_sem_nova undo.peca_played])
    else (enf.2, s, [Msg.undo_play_erro])

/-- Branch `case A_RESERVE` of `desfazer` (lines 379-409). -/
def desfazer_reserve (f : Fila) (s : Pilha) (undo : UndoInfo) : Fila × Pilha × List Msg :=
  if !pilha_esta_vazia s then
    let pop := pilha_pop s default
    let top := pop.2.2
    if pop.1 then
      let enf := fila_enqueue_front f top
      if !enf.1 then
        (enf.2, (pilha_push pop.2.1 top).2, [Msg.undo_reserve_erro_recolocar])
      else if undo.had_new_enqueued then
        let deq := fila_dequeue_tail enf.2 default
        if deq.1 then (deq.2.1, pop.2.1, [Msg.undo_reserve_ok top deq.2.2])
        else (deq.2.1, pop.2.1, [])
      else (enf.2, pop.2.1, [Msg.undo_reserve_ok_sem_nova top])
    else (f, pop.2.1, [Msg.undo_reserve_erro_pop])
  else (f, s, [Msg.undo_reserve_erro_pilha_vazia])

/-- Branch `case A_USE_RESERVED` of `desfazer` (lines 411-436). -/
def desfazer_usar (f : Fila) (s : Pilha) (undo : UndoInfo) : Fila × Pilha × List Msg :=
  if undo.had_new_enqueued then
    let deq := fila_dequeue_tail f default
    let tail := deq.2.2
    if deq.1 then
      let psh := pilha_push s undo.peca_played
      if psh.1 then (deq.2.1, psh.2, [Msg.undo_usar_ok undo.peca_played tail])
      else ((fila_enfileirar deq.2.1 tail).2, psh.2, [Msg.undo_usar_erro_pilha_cheia_tail])
    else (deq.2.1, s, [Msg.undo_usar_erro_sem_tail])
  else
    let psh := pilha_push s undo.peca_played
    if psh.1 then (f, psh.2, [Msg.undo_usar_ok_sem_nova undo.peca_played])
    else (f, psh.2, [Msg.undo_usar_erro_pilha_cheia])

/-- Branch `case A_SWAP` of `desfazer` (lines 438-449). -/
def desfazer_swap (f : Fila) (s : Pilha) (undo : UndoInfo) : Fila × Pilha × List Msg :=
  if !fila_esta_vazia f && !pilha_esta_vazia s then
    ({ f with dados := f.dados.set f.frente.toNat undo.swap_fila },
     { s with dados := s.dados.set s.top.toNat undo.swap_pilha },
     [Msg.undo_swap_ok])
  else (f, s, [Msg.undo_swap_erro])

/-- Branch `case A_INVERT` of `desfazer` (lines 451-470). -/
def desfazer_invert (f : Fila) (s : Pilha) : Fila × Pilha × List Msg :=
  (inverter_fila f, inverter_pilha s, [Msg.undo_invert_ok])

/-- The last statement of `desfazer` (line 478), applied to what the taken
`case` left: `undo->acao = A_NENHUMA`. -/
def limpar_undo (st : Sessao) (res : Fila × Pilha × List Msg) : Sessao × List Msg :=
  ({ fila := res.1, pilha := res.2.1, undo := { st.undo with acao := A_NENHUMA }, ger := st.ger },
   res.2.2)

/-- Source function `desfazer`: undo the recorded action and clear the record.  The `default:`
branch of the `switch` has no counterpart: `AcaoUltima` has the six enumerators only. -/
def desfazer (st : Sessao) : Sessao × List Msg :=
  match st.undo.acao with
  | A_NENHUMA => (st, [Msg.nada_para_desfazer])
  | A_PLAY => limpar_undo st (desfazer_play st.fila st.pilha st.undo)
  | A_RESERVE => limpar_undo st (desfazer_reserve st.fila st.pilha st.undo)
  | A_USE_RESERVED => limpar_undo st (desfazer_usar st.fila st.pilha st.undo)
  | A_SWAP => limpar_undo st (desfazer_swap st.fila st.pilha st.undo)
  | A_INVERT => limpar_undo st (desfazer_invert st.fila st.pilha)

/-! ## Session start and the menu loop (lines 482-562) -/

/-- Source function `fila_inicializar_com_pecas`: `rs i` is what `rand()` returns in iteration `i`. -/
def fila_inicializar_com_pecas (f : Fila) (g : Gerador) (rs : Nat → Nat) : Fila × Gerador :=
  (List.range FILA_CAP.toNat).foldl
    (fun fg (i : Nat) =>
      let ger := gerarPeca fg.2 (rs i)
      ((fila_enfileirar fg.1 ger.1).2, ger.2))
    (fila_inicializar f, g)

/-- What the locals `fila`, `pilha` and `undo` of `main` hold before they are
initialised.  Their content is indeterminate in C, so every field is arbitrary:
slot `i` of the queue array holds `fila_dados i`, slot `i` of the stack array
holds `pilha_dados i`. -/
structure Indeterminado where
  fila_dados : Nat → Peca
  fila_frente : Int
  fila_count : Int
  pilha_dados : Nat → Peca
  pilha_top : Int
  undo : UndoInfo

/-- The locals of `main` before they are initialised (lines 493-495), with the
generator's `static int next_id = 1`, which no piece has left yet. -/
def memoria_inicial (m : Indeterminado) : Sessao :=
  { fila := { dados := (List.range FILA_CAP.toNat).map m.fila_dados,
              frente := m.fila_frente, count := m.fila_count },
    pilha := { dados := (List.range PILHA_CAP.toNat).map m.pilha_dados, top := m.pilha_top },
    undo := m.undo,
    ger := { next_id := 1, emitidas := [] } }

/-- The start of `main` (lines 493-500) on indeterminate locals `i`: fill the
queue, empty the stack, clear the undo tag. -/
def nova_sessao (i : Indeterminado) (rs : Nat → Nat) : Sessao :=
  let m := memoria_inicial i
  let ini := fila_inicializar_com_pecas m.fila m.ger rs
  { fila := ini.1, pilha := pilha_inicializar m.pilha,
    undo := { m.undo with acao := A_NENHUMA }, ger := ini.2 }

/-- A menu choice that reaches the core (options 2 to 7 of `main`), with the
value `rand()` returns if the action draws a piece. -/
inductive Op where
  | jogar (r : Nat)
  | reservar (r : Nat)
  | usar_reservada (r : Nat)
  | swap
  | desfazer
  | invert
deriving DecidableEq, Repr

/-- One turn of the menu `switch` (lines 524-557). -/
def executar (st : Sessao) : Op → Sessao
  | Op.jogar r => (fazer_jogar r st).1
  | Op.reservar r => (fazer_reservar r st).1
  | Op.usar_reservada r => (fazer_usar_reservada r st).1
  | Op.swap => (fazer_swap st).1
  | Op.desfazer => (desfazer st).1
  | Op.invert => (fazer_invert st).1

/-- The menu loop over a finite sequence of choices. -/
def sessao_apos (ops : List Op) (st : Sessao) : Sessao := ops.foldl executar st

/-! ## Validity -/

/-- A well-formed queue: five slots, `0 <= frente <= 4`, `0 <= count <= 5`. -/
def fila_valida (f : Fila) : Prop :=
  f.dados.length = 5 ∧ 0 ≤ f.frente ∧ f.frente ≤ 4 ∧ 0 ≤ f.count ∧ f.count ≤ 5

/-- A well-formed stack: three slots, `-1 <= top <= 2`. -/
def pilha_valida (s : Pilha) : Prop :=
  s.dados.length = 3 ∧ -1 ≤ s.top ∧ s.top ≤ 2

/-- A valid state: both structures are well formed; the undo record and the
generator are arbitrary. -/
def valida (st : Sessao) : Prop := fila_valida st.fila ∧ pilha_valida st.pilha

instance (f : Fila) : Decidable (fila_valida f) := by unfold fila_valida; infer_instance
instance (s : Pilha) : Decidable (pilha_valida s) := by unfold pilha_valida; infer_instance
instance (st : Sessao) : Decidable (valida st) := by unfold valida; infer_instance

/-- Some content for the uninitialised locals of `main`: stray pieces in every
slot, indices out of range, and a stale Swap tag. -/
def lixo : Indeterminado :=
  { fila_dados := fun k => { nome := "?", id := -1 - (k : Int) },
    fila_frente := 3, fila_count := 7,
    pilha_dados := fun k => { nome := "?", id := -10 - (k : Int) },
    pilha_top := 2,
    undo := { acao := A_SWAP, peca_played := default, had_new_enqueued := true,
              new_enqueued := default, swap_fila := default, swap_pilha := default } }

/-- A fresh session started on `lixo` in which `rand()` returns 0, 1, 2, ... :
queue ids 1..5. -/
def sessao_inicial : Sessao := nova_sessao lixo (fun k => k)

/-- The session after three Reserve actions: stack ids 1, 2, 3 (bottom to top),
queue ids 4, 5, 6, 7, 8 (front to tail), front index 3. -/
def sessao_tres_reservas : Sessao :=
  sessao_apos [Op.reservar 5, Op.reservar 6, Op.reservar 0] sessao_inicial

/-- The session after one Reserve and one Invert: a reversed full queue, one
reserved piece, and an Invert record pending. -/
def sessao_invertida : Sessao :=
  sessao_apos [Op.reservar 5, Op.invert] sessao_inicial

/-! ## The bounded list of the specification (section 4.2) -/

/-- Bounded list of capacity 5, operation `enqueue_tail(p) -> bool` of the
specification: fails (false, no mutation) if full, otherwise appends at the tail. -/
def lista_enqueue_tail (L : List Peca) (p : Peca) : Bool × List Peca :=
  if L.length = 5 then (false, L) else (true, L ++ [p])

/-- Bounded list, operation `dequeue_front() -> Option<Piece>` of the
specification: fails (none) if empty, otherwise removes and returns the front. -/
def lista_dequeue_front : List Peca → Option Peca × List Peca
  | [] => (none, [])
  | x :: xs => (some x, xs)

/-- Bounded list, operation `dequeue_tail() -> Option<Piece>` of the
specification: fails if empty, otherwise removes the last element. -/
def lista_dequeue_tail (L : List Peca) : Option Peca × List Peca :=
  (L.getLast?, L.dropLast)

/-- Bounded list, operation `enqueue_front(p) -> bool` of the specification:
fails if full, otherwise the piece becomes the new front. -/
def lista_enqueue_front (L : List Peca) (p : Peca) : Bool × List Peca :=
  if L.length = 5 then (false, L) else (true, p :: L)

/-- The result of a C call `ok = g(.., &out)` read as an option. -/
def resultado (ok : Bool) (out : Peca) : Option Peca := if ok then some out else none


/-! ## Further concrete sessions -/

/-- The locals of `main` with an empty queue and an empty stack. -/
def sessao_vazia : Sessao :=
  { memoria_inicial lixo with
    fila := fila_inicializar (memoria_inicial lixo).fila,
    pilha := pilha_inicializar (memoria_inicial lixo).pilha }

/-- The session after two Reserve actions: a full queue (ids 3..7) and two
reserved pieces (ids 1, 2). -/
def sessao_duas_reservas : Sessao :=
  sessao_apos [Op.reservar 5, Op.reservar 6] sessao_inicial

/-- A valid state with room in the queue: `sessao_duas_reservas` after one more
piece has left the front (queue ids 4..7, count 4). -/
def sessao_fila_quatro : Sessao :=
  { sessao_duas_reservas with
    fila := (fila_desenfileirar sessao_duas_reservas.fila default).2.1 }

/-- The session after one Reserve: full queue (ids 2..6), one reserved piece
(id 1) and a Reserve record pending. -/
def sessao_uma_reserva : Sessao := sessao_apos [Op.reservar 5] sessao_inicial


/-! ## The invariant of a running session -/

/-- The part of the invariant that keeps the queue full, whatever the ids: valid
structures, count 5, and a UseReserved record that enqueued nothing. -/
def sessao_cheia (st : Sessao) : Prop :=
  valida st ∧ st.fila.count = 5
    ∧ (st.undo.acao = A_USE_RESERVED → st.undo.had_new_enqueued = false)


/-! ## Checked execution

The same functions once more, with every array access and every `%` tested:
an index outside the array, or a negative left operand of `%`, makes the
function return `none`. -/

/-- Read `d[i]` of an array declared with `cap` slots. -/
def ler (cap : Int) (d : List Peca) (i : Int) : Option Peca :=
  if 0 ≤ i ∧ i < cap then some (d.getD i.toNat default) else none

/-- Write `d[i] = p` in an array declared with `cap` slots. -/
def escrever (cap : Int) (d : List Peca) (i : Int) (p : Peca) : Option (List Peca) :=
  if 0 ≤ i ∧ i < cap then some (d.set i.toNat p) else none

/-- Compute `a % b`, refusing a negative `a`. -/
def resto (a b : Int) : Option Int :=
  if 0 ≤ a then some (Int.tmod a b) else none

/-- Checked `fila_enfileirar` (lines 112-118). -/
def fila_enfileirar_verificado (f : Fila) (p : Peca) : Option (Bool × Fila) :=
  if fila_esta_cheia f then some (false, f)
  else do
    let tail ← resto (f.frente + f.count) FILA_CAP
    let dados ← escrever FILA_CAP f.dados tail p
    pure (true, { f with dados := dados, count := f.count + 1 })

/-- Checked `fila_desenfileirar` (lines 121-127). -/
def fila_desenfileirar_verificado (f : Fila) (out : Peca) : Option (Bool × Fila × Peca) :=
  if fila_esta_vazia f then some (false, f, out)
  else do
    let x ← ler FILA_CAP f.dados f.frente
    let frente ← resto (f.frente + 1) FILA_CAP
    pure (true, { f with frente := frente, count := f.count - 1 }, x)

/-- Checked `fila_dequeue_tail` (lines 130-136). -/
def fila_dequeue_tail_verificado (f : Fila) (out : Peca) : Option (Bool × Fila × Peca) :=
  if fila_esta_vazia f then some (false, f, out)
  else do
    let tail ← resto (f.frente + f.count - 1 + FILA_CAP) FILA_CAP
    let x ← ler FILA_CAP f.dados tail
    pure (true, { f with count := f.count - 1 }, x)

/-- Checked `fila_enqueue_front` (lines 139-145). -/
def fila_enqueue_front_verificado (f : Fila) (p : Peca) : Option (Bool × Fila) :=
  if fila_esta_cheia f then some (false, f)
  else do
    let frente ← resto (f.frente - 1 + FILA_CAP) FILA_CAP
    let dados ← escrever FILA_CAP f.dados frente p
    pure (true, { dados := dados, frente := frente, count := f.count + 1 })

/-- Checked `pilha_push` (lines 172-177). -/
def pilha_push_verificado (s : Pilha) (p : Peca) : Option (Bool × Pilha) :=
  if pilha_esta_cheia s then some (false, s)
  else do
    let top := s.top + 1
    let dados ← escrever PILHA_CAP s.dados top p
    pure (true, { dados := dados, top := top })

/-- Checked `pilha_pop` (lines 179-184). -/
def pilha_pop_verificado (s : Pilha) (out : Peca) : Option (Bool × Pilha × Peca) :=
  if pilha_esta_vazia s then some (false, s, out)
  else do
    let x ← ler PILHA_CAP s.dados s.top
    pure (true, { s with top := s.top - 1 }, x)

/-- Checked `fazer_jogar` (lines 207-231). -/
def fazer_jogar_verificado (r : Nat) (st : Sessao) : Option (Sessao × List Msg) :=
  if fila_esta_vazia st.fila then some (st, [Msg.jogar_fila_vazia])
  else do
    let deq ← fila_desenfileirar_verificado st.fila default
    let played := deq.2.2
    let ger := gerarPeca st.ger r
    let nova := ger.1
    let enf ← fila_enfileirar_verificado deq.2.1 nova
    let enq := enf.1
    pure ({ fila := enf.2, pilha := st.pilha,
            undo := { acao := A_PLAY, peca_played := played, had_new_enqueued := enq,
                      new_enqueued := if enq then nova else st.undo.new_enqueued,
                      swap_fila := st.undo.swap_fila, swap_pilha := st.undo.swap_pilha },
            ger := ger.2 },
          [Msg.jogou played, if enq then Msg.jogar_nova nova else Msg.jogar_aviso_sem_nova])

/-- Checked `fazer_reservar` (lines 235-263). -/
def fazer_reservar_verificado (r : Nat) (st : Sessao) : Option (Sessao × List Msg) :=
  if pilha_esta_cheia st.pilha then some (st, [Msg.reservar_pilha_cheia])
  else if fila_esta_vazia st.fila then some (st, [Msg.reservar_fila_vazia])
  else do
    let deq ← fila_desenfileirar_verificado st.fila default
    let front := deq.2.2
    let psh ← pilha_push_verificado st.pilha front
    let pushed := psh.1
    let ger := gerarPeca st.ger r
    let nova := ger.1
    let enf ← fila_enfileirar_verificado deq.2.1 nova
    let enq := enf.1
    pure ({ fila := enf.2, pilha := psh.2,
            undo := { acao := A_RESERVE, peca_played := front, had_new_enqueued := enq,
                      new_enqueued := if enq then nova else st.undo.new_enqueued,
                      swap_fila := st.undo.swap_fila, swap_pilha := st.undo.swap_pilha },
            ger := ger.2 },
          (if pushed then Msg.reservada front else Msg.reservar_erro_empilhar)
            :: (if enq then [Msg.reservar_nova nova] else []))

/-- Checked `fazer_usar_reservada` (lines 267-286). -/
def fazer_usar_reservada_verificado (r : Nat) (st : Sessao) : Option (Sessao × List Msg) :=
  if pilha_esta_vazia st.pilha then some (st, [Msg.usar_pilha_vazia])
  else do
    let pop ← pilha_pop_verificado st.pilha default
    let top := pop.2.2
    let ger := gerarPeca st.ger r
    let nova := ger.1
    let enf ← fila_enfileirar_verificado st.fila nova
    let enq := enf.1
    pure ({ fila := enf.2, pilha := pop.2.1,
            undo := { acao := A_USE_RESERVED, peca_played := top, had_new_enqueued := enq,
                      new_enqueued := if enq then nova else st.undo.new_enqueued,
                      swap_fila := st.undo.swap_fila, swap_pilha := st.undo.swap_pilha },
            ger := ger.2 },
          Msg.usou top :: (if enq then [Msg.usar_nova nova] else []))

/-- Checked `fazer_swap` (lines 289-314): the two reads, the two writes, and the
two reads made to print the new front and the new top. -/
def fazer_swap_verificado (st : Sessao) : Option (Sessao × List Msg) :=
  if pilha_esta_vazia st.pilha then some (st, [Msg.swap_pilha_vazia])
  else if fila_esta_vazia st.fila then some (st, [Msg.swap_fila_vazia])
  else do
    let top ← ler PILHA_CAP st.pilha.dados st.pilha.top
    let front ← ler FILA_CAP st.fila.dados st.fila.frente
    let u1 : UndoInfo := { st.undo with acao := A_SWAP, swap_fila := front, swap_pilha := top }
    let sd ← escrever PILHA_CAP st.pilha.dados st.pilha.top front
    let fd ← escrever FILA_CAP st.fila.dados st.fila.frente top
    let nova_frente ← ler FILA_CAP fd st.fila.frente
    let novo_topo ← ler PILHA_CAP sd st.pilha.top
    pure ({ fila := { st.fila with dados := fd }, pilha := { st.pilha with dados := sd },
            undo := u1, ger := st.ger },
          [Msg.swap_realizado nova_frente novo_topo])

/-- Checked exchange `tmp = d[a]; d[a] = d[b]; d[b] = tmp`. -/
def trocar_verificado (cap : Int) (d : List Peca) (a b : Int) : Option (List Peca) := do
  let tmp ← ler cap d a
  let y ← ler cap d b
  let d1 ← escrever cap d a y
  escrever cap d1 b tmp

/-- Checked queue loop of Invert (lines 324-330, again 455-461). -/
def inverter_fila_verificado (f : Fila) : Option Fila := do
  let dados ← (List.range (Int.tdiv f.count 2).toNat).foldlM
    (fun d (i : Nat) => do
      let idx1 ← resto (f.frente + (i : Int)) FILA_CAP
      let idx2 ← resto (f.frente + f.count - 1 - (i : Int) + FILA_CAP) FILA_CAP
      trocar_verificado FILA_CAP d idx1 idx2)
    f.dados
  pure { f with dados := dados }

/-- Checked stack loop of Invert (lines 333-338, again 463-468). -/
def inverter_pilha_verificado (s : Pilha) : Option Pilha := do
  let dados ← (List.range (Int.tdiv (s.top + 1) 2).toNat).foldlM
    (fun d (i : Nat) => trocar_verificado PILHA_CAP d (i : Int) (s.top - (i : Int)))
    s.dados
  pure { s with dados := dados }

/-- Checked `fazer_invert` (lines 319-341). -/
def fazer_invert_verificado (st : Sessao) : Option (Sessao × List Msg) := do
  let f ← inverter_fila_verificado st.fila
  let s ← inverter_pilha_verificado st.pilha
  pure ({ fila := f, pilha := s, undo := { st.undo with acao := A_INVERT }, ger := st.ger },
        [Msg.invert_executada])

/-- Checked `case A_PLAY` of `desfazer` (lines 351-377). -/
def desfazer_play_verificado (f : Fila) (s : Pilha) (undo : UndoInfo) :
    Option (Fila × Pilha × List Msg) :=
  if undo.had_new_enqueued then do
    let deq ← fila_dequeue_tail_verificado f default
    let tail := deq.2.2
    if deq.1 then do
      let enf ← fila_enqueue_front_verificado deq.2.1 undo.peca_played
      if !enf.1 then do
        let ree ← fila_enfileirar_verificado enf.2 tail
        pure (ree.2, s, [Msg.undo_play_erro_reinserir])
      else pure (enf.2, s, [Msg.undo_play_ok tail undo.peca_played])
    else pure (deq.2.1, s, [Msg.undo_play_erro_sem_tail])
  else do
    let enf ← fila_enqueue_front_verificado f undo.peca_played
    if enf.1 then pure (enf.2, s, [Msg.undo_play_ok_sem_nova undo.peca_played])
    else pure (enf.2, s, [Msg.undo_play_erro])

/-- Checked `case A_RESERVE` of `desfazer` (lines 379-409). -/
def desfazer_reserve_verificado (f : Fila) (s : Pilha) (undo : UndoInfo) :
    Option (Fila × Pilha × List Msg) :=
  if !pilha_esta_vazia s then do
    let pop ← pilha_pop_verificado s default
    let top := pop.2.2
    if pop.1 then do
      let enf ← fila_enqueue_front_verificado f top
      if !enf.1 then do
        let psh ← pilha_push_verificado pop.2.1 top
        pure (enf.2, psh.2, [Msg.undo_reserve_erro_recolocar])
      else if undo.had_new_enqueued then do
        let deq ← fila_dequeue_tail_verificado enf.2 default
        if deq.1 then pure (deq.2.1, pop.2.1, [Msg.undo_reserve_ok top deq.2.2])
        else pure (deq.2.1, pop.2.1, [])
      else pure (enf.2, pop.2.1, [Msg.undo_reserve_ok_sem_nova top])
    else pure (f, pop.2.1, [Msg.undo_reserve_erro_pop])
  else pure (f, s, [Msg.undo_reserve_erro_pilha_vazia])

/-- Checked `case A_USE_RESERVED` of `desfazer` (lines 411-436). -/
def desfazer_usar_verificado (f : Fila) (s : Pilha) (undo : UndoInfo) :
    Option (Fila × Pilha × List Msg) :=
  if undo.had_new_enqueued then do
    let deq ← fila_dequeue_tail_verificado f default
    let tail := deq.2.2
    if deq.1 then do
      let psh ← pilha_push_verificado s undo.peca_played
      if psh.1 then pure (deq.2.1, psh.2, [Msg.undo_usar_ok undo.peca_played tail])
      else do
        let ree ← fila_enfileirar_verificado deq.2.1 tail
        pure (ree.2, psh.2, [Msg.undo_usar_erro_pilha_cheia_tail])
    else pure (deq.2.1, s, [Msg.undo_usar_erro_sem_tail])
  else do
    let psh ← pilha_push_verificado s undo.peca_played
    if psh.1 then pure (f, psh.2, [Msg.undo_usar_ok_sem_nova undo.peca_played])
    else pure (f, psh.2, [Msg.undo_usar_erro_pilha_cheia])

/-- Checked `case A_SWAP` of `desfazer` (lines 438-449). -/
def desfazer_swap_verificado (f : Fila) (s : Pilha) (undo : UndoInfo) :
    Option (Fila × Pilha × List Msg) :=
  if !fila_esta_vazia f && !pilha_esta_vazia s then do
    let fd ← escrever FILA_CAP f.dados f.frente undo.swap_fila
    let sd ← escrever PILHA_CAP s.dados s.top undo.swap_pilha
    pure ({ f with dados := fd }, { s with dados := sd }, [Msg.undo_swap_ok])
  else pure (f, s, [Msg.undo_swap_erro])

/-- Checked `case A_INVERT` of `desfazer` (lines 451-470). -/
def desfazer_invert_verificado (f : Fila) (s : Pilha) : Option (Fila × Pilha × List Msg) := do
  let f1 ← inverter_fila_verificado f
  let s1 ← inverter_pilha_verificado s
  pure (f1, s1, [Msg.undo_invert_ok])

/-- Checked `desfazer` (lines 344-479). -/
def desfazer_verificado (st : Sessao) : Option (Sessao × List Msg) :=
  match st.undo.acao with
  | A_NENHUMA => some (st, [Msg.nada_para_desfazer])
  | A_PLAY => (desfazer_play_verificado st.fila st.pilha st.undo).map (limpar_undo st)
  | A_RESERVE => (desfazer_reserve_verificado st.fila st.pilha st.undo).map (limpar_undo st)
  | A_USE_RESERVED => (desfazer_usar_verificado st.fila st.pilha st.undo).map (limpar_undo st)
  | A_SWAP => (desfazer_swap_verificado st.fila st.pilha st.undo).map (limpar_undo st)
  | A_INVERT => (desfazer_invert_verificado st.fila st.pilha).map (limpar_undo st)

/-! ## Auxiliary lemmas -/

theorem lista_de_cinco {l : List Peca} (h : l.length = 5) :
    ∃ a b c d e, l = [a, b, c, d, e] := by
  match l, h with
  | [a, b, c, d, e], _ => exact ⟨a, b, c, d, e, rfl⟩

theorem lista_de_tres {l : List Peca} (h : l.length = 3) :
    ∃ a b c, l = [a, b, c] := by
  match l, h with
  | [a, b, c], _ => exact ⟨a, b, c, rfl⟩

/-- A well-formed queue is five slots with one of thirty index pairs. -/
theorem fila_valida_formas {f : Fila} (h : fila_valida f) :
    ∃ a b c d e fr ct, f = { dados := [a, b, c, d, e], frente := fr, count := ct }
      ∧ 0 ≤ fr ∧ fr ≤ 4 ∧ 0 ≤ ct ∧ ct ≤ 5 := by
  obtain ⟨dados, frente, count⟩ := f
  obtain ⟨hl, h0, h4, hc0, hc5⟩ := h
  simp only at hl h0 h4 hc0 hc5
  obtain ⟨a, b, c, d, e, rfl⟩ := lista_de_cinco hl
  exact ⟨a, b, c, d, e, frente, count, rfl, h0, h4, hc0, hc5⟩

/-- A well-formed stack is three slots with one of four values of `top`. -/
theorem pilha_valida_formas {s : Pilha} (h : pilha_valida s) :
    ∃ x y z tp, s = { dados := [x, y, z], top := tp } ∧ -1 ≤ tp ∧ tp ≤ 2 := by
  obtain ⟨dados, top⟩ := s
  obtain ⟨hl, h0, h2⟩ := h
  simp only at hl h0 h2
  obtain ⟨x, y, z, rfl⟩ := lista_de_tres hl
  exact ⟨x, y, z, top, rfl, h0, h2⟩

theorem tmod_cinco {x : Int} (h : 0 ≤ x) : Int.tmod x 5 = x % 5 :=
  Int.tmod_eq_emod h (by decide)

/-! ### Every operation keeps the structures well formed -/

theorem fila_enfileirar_valida {f : Fila} (p : Peca) (h : fila_valida f) :
    fila_valida (fila_enfileirar f p).2 := by
  obtain ⟨hl, h0, h4, hc0, hc5⟩ := h
  unfold fila_enfileirar fila_esta_cheia
  split
  · exact ⟨hl, h0, h4, hc0, hc5⟩
  · rename_i hc
    simp only [beq_iff_eq, FILA_CAP] at hc
    refine ⟨by simpa using hl, h0, h4, ?_, ?_⟩ <;> simp only <;> omega

theorem fila_desenfileirar_valida {f : Fila} (out : Peca) (h : fila_valida f) :
    fila_valida (fila_desenfileirar f out).2.1 := by
  obtain ⟨hl, h0, h4, hc0, hc5⟩ := h
  unfold fila_desenfileirar fila_esta_vazia
  split
  · exact ⟨hl, h0, h4, hc0, hc5⟩
  · rename_i hc
    simp only [beq_iff_eq] at hc
    refine ⟨hl, ?_, ?_, ?_, ?_⟩ <;>
      simp only [FILA_CAP, tmod_cinco (show 0 ≤ f.frente + 1 by omega)] <;> omega

theorem fila_dequeue_tail_valida {f : Fila} (out : Peca) (h : fila_valida f) :
    fila_valida (fila_dequeue_tail f out).2.1 := by
  obtain ⟨hl, h0, h4, hc0, hc5⟩ := h
  unfold fila_dequeue_tail fila_esta_vazia
  split
  · exact ⟨hl, h0, h4, hc0, hc5⟩
  · rename_i hc
    simp only [beq_iff_eq] at hc
    refine ⟨hl, h0, h4, ?_, ?_⟩ <;> simp only <;> omega

theorem fila_enqueue_front_valida {f : Fila} (p : Peca) (h : fila_valida f) :
    fila_valida (fila_enqueue_front f p).2 := by
  obtain ⟨hl, h0, h4, hc0, hc5⟩ := h
  unfold fila_enqueue_front fila_esta_cheia
  split
  · exact ⟨hl, h0, h4, hc0, hc5⟩
  · rename_i hc
    simp only [beq_iff_eq, FILA_CAP] at hc
    refine ⟨by simpa using hl, ?_, ?_, ?_, ?_⟩ <;>
      simp only [FILA_CAP, tmod_cinco (show 0 ≤ f.frente - 1 + 5 by omega)] <;> omega

theorem pilha_push_valida {s : Pilha} (p : Peca) (h : pilha_valida s) :
    pilha_valida (pilha_push s p).2 := by
  obtain ⟨hl, h0, h2⟩ := h
  unfold pilha_push pilha_esta_cheia
  split
  · exact ⟨hl, h0, h2⟩
  · rename_i hc
    simp only [beq_iff_eq, PILHA_CAP] at hc
    refine ⟨by simpa using hl, ?_, ?_⟩ <;> simp only <;> omega

theorem pilha_pop_valida {s : Pilha} (out : Peca) (h : pilha_valida s) :
    pilha_valida (pilha_pop s out).2.1 := by
  obtain ⟨hl, h0, h2⟩ := h
  unfold pilha_pop pilha_esta_vazia
  split
  · exact ⟨hl, h0, h2⟩
  · rename_i hc
    simp only [beq_iff_eq] at hc
    refine ⟨hl, ?_, ?_⟩ <;> simp only <;> omega

theorem trocar_length (d : List Peca) (a b : Int) : (trocar d a b).length = d.length := by
  simp [trocar]

theorem foldl_length_inv (g : List Peca → Nat → List Peca)
    (hg : ∀ d i, (g d i).length = d.length) (is : List Nat) (d : List Peca) :
    (is.foldl g d).length = d.length := by
  induction is generalizing d with
  | nil => rfl
  | cons i is ih => rw [List.foldl_cons, ih, hg]

theorem inverter_fila_valida {f : Fila} (h : fila_valida f) : fila_valida (inverter_fila f) := by
  obtain ⟨hl, h0, h4, hc0, hc5⟩ := h
  refine ⟨?_, h0, h4, hc0, hc5⟩
  unfold inverter_fila
  exact (foldl_length_inv _ (fun d i => trocar_length _ _ _) _ _).trans hl

theorem inverter_pilha_valida {s : Pilha} (h : pilha_valida s) :
    pilha_valida (inverter_pilha s) := by
  obtain ⟨hl, h0, h2⟩ := h
  refine ⟨?_, h0, h2⟩
  unfold inverter_pilha
  exact (foldl_length_inv _ (fun d i => trocar_length _ _ _) _ _).trans hl

theorem fazer_jogar_valida (r : Nat) {st : Sessao} (hv : valida st) :
    valida (fazer_jogar r st).1 := by
  unfold fazer_jogar
  split
  · exact hv
  · exact ⟨fila_enfileirar_valida _ (fila_desenfileirar_valida _ hv.1), hv.2⟩

theorem fazer_reservar_valida (r : Nat) {st : Sessao} (hv : valida st) :
    valida (fazer_reservar r st).1 := by
  unfold fazer_reservar
  split
  · exact hv
  · split
    · exact hv
    · exact ⟨fila_enfileirar_valida _ (fila_desenfileirar_valida _ hv.1),
        pilha_push_valida _ hv.2⟩

theorem fazer_usar_reservada_valida (r : Nat) {st : Sessao} (hv : valida st) :
    valida (fazer_usar_reservada r st).1 := by
  unfold fazer_usar_reservada
  split
  · exact hv
  · exact ⟨fila_enfileirar_valida _ hv.1, pilha_pop_valida _ hv.2⟩

theorem fazer_swap_valida {st : Sessao} (hv : valida st) : valida (fazer_swap st).1 := by
  obtain ⟨⟨hl, h0, h4, hc0, hc5⟩, hp, ht0, ht2⟩ := hv
  unfold fazer_swap
  split
  · exact ⟨⟨hl, h0, h4, hc0, hc5⟩, hp, ht0, ht2⟩
  · split
    · exact ⟨⟨hl, h0, h4, hc0, hc5⟩, hp, ht0, ht2⟩
    · exact ⟨⟨by simpa using hl, h0, h4, hc0, hc5⟩, by simpa using hp, ht0, ht2⟩

theorem fazer_invert_valida {st : Sessao} (hv : valida st) : valida (fazer_invert st).1 :=
  ⟨inverter_fila_valida hv.1, inverter_pilha_valida hv.2⟩

theorem desfazer_play_valida {f : Fila} {s : Pilha} (u : UndoInfo)
    (hf : fila_valida f) (hs : pilha_valida s) :
    fila_valida (desfazer_play f s u).1 ∧ pilha_valida (desfazer_play f s u).2.1 := by
  unfold desfazer_play
  simp only
  split_ifs
  · exact ⟨fila_enfileirar_valida _
      (fila_enqueue_front_valida _ (fila_dequeue_tail_valida _ hf)), hs⟩
  · exact ⟨fila_enqueue_front_valida _ (fila_dequeue_tail_valida _ hf), hs⟩
  · exact ⟨fila_dequeue_tail_valida _ hf, hs⟩
  · exact ⟨fila_enqueue_front_valida _ hf, hs⟩
  · exact ⟨fila_enqueue_front_valida _ hf, hs⟩

theorem desfazer_reserve_valida {f : Fila} {s : Pilha} (u : UndoInfo)
    (hf : fila_valida f) (hs : pilha_valida s) :
    fila_valida (desfazer_reserve f s u).1 ∧ pilha_valida (desfazer_reserve f s u).2.1 := by
  unfold desfazer_reserve
  simp only
  split_ifs
  · exact ⟨fila_enqueue_front_valida _ hf, pilha_push_valida _ (pilha_pop_valida _ hs)⟩
  · exact ⟨fila_dequeue_tail_valida _ (fila_enqueue_front_valida _ hf), pilha_pop_valida _ hs⟩
  · exact ⟨fila_dequeue_tail_valida _ (fila_enqueue_front_valida _ hf), pilha_pop_valida _ hs⟩
  · exact ⟨fila_enqueue_front_valida _ hf, pilha_pop_valida _ hs⟩
  · exact ⟨hf, pilha_pop_valida _ hs⟩
  · exact ⟨hf, hs⟩

theorem desfazer_usar_valida {f : Fila} {s : Pilha} (u : UndoInfo)
    (hf : fila_valida f) (hs : pilha_valida s) :
    fila_valida (desfazer_usar f s u).1 ∧ pilha_valida (desfazer_usar f s u).2.1 := by
  unfold desfazer_usar
  simp only
  split_ifs
  · exact ⟨fila_dequeue_tail_valida _ hf, pilha_push_valida _ hs⟩
  · exact ⟨fila_enfileirar_valida _ (fila_dequeue_tail_valida _ hf), pilha_push_valida _ hs⟩
  · exact ⟨fila_dequeue_tail_valida _ hf, hs⟩
  · exact ⟨hf, pilha_push_valida _ hs⟩
  · exact ⟨hf, pilha_push_valida _ hs⟩

theorem desfazer_swap_valida {f : Fila} {s : Pilha} (u : UndoInfo)
    (hf : fila_valida f) (hs : pilha_valida s) :
    fila_valida (desfazer_swap f s u).1 ∧ pilha_valida (desfazer_swap f s u).2.1 := by
  obtain ⟨hl, h0, h4, hc0, hc5⟩ := hf
  obtain ⟨hp, ht0, ht2⟩ := hs
  unfold desfazer_swap
  split
  · exact ⟨⟨by simpa using hl, h0, h4, hc0, hc5⟩, by simpa using hp, ht0, ht2⟩
  · exact ⟨⟨hl, h0, h4, hc0, hc5⟩, hp, ht0, ht2⟩

theorem desfazer_valida {st : Sessao} (hv : valida st) : valida (desfazer st).1 := by
  unfold desfazer
  split
  · exact hv
  · exact desfazer_play_valida _ hv.1 hv.2
  · exact desfazer_reserve_valida _ hv.1 hv.2
  · exact desfazer_usar_valida _ hv.1 hv.2
  · exact desfazer_swap_valida _ hv.1 hv.2
  · exact ⟨inverter_fila_valida hv.1, inverter_pilha_valida hv.2⟩

theorem executar_valida {st : Sessao} (op : Op) (hv : valida st) : valida (executar st op) := by
  cases op with
  | jogar r => exact fazer_jogar_valida r hv
  | reservar r => exact fazer_reservar_valida r hv
  | usar_reservada r => exact fazer_usar_reservada_valida r hv
  | swap => exact fazer_swap_valida hv
  | desfazer => exact desfazer_valida hv
  | invert => exact fazer_invert_valida hv

theorem nova_sessao_valida (i : Indeterminado) (rs : Nat → Nat) :
    valida (nova_sessao i rs) := by
  have h1 : (nova_sessao i rs).fila.dados.length = 5 := by rfl
  have h2 : (nova_sessao i rs).fila.frente = 0 := by rfl
  have h3 : (nova_sessao i rs).fila.count = 5 := by rfl
  have h4 : (nova_sessao i rs).pilha.dados.length = 3 := by rfl
  have h5 : (nova_sessao i rs).pilha.top = -1 := by rfl
  refine ⟨⟨h1, ?_, ?_, ?_, ?_⟩, h4, ?_, ?_⟩ <;> omega

theorem sessao_apos_valida (ops : List Op) {st : Sessao} (hv : valida st) :
    valida (sessao_apos ops st) := by
  induction ops generalizing st with
  | nil => exact hv
  | cons op ops ih => exact ih (executar_valida op hv)

/-! ### The generator's history -/

/-- An operation calls the generator at most once, and nothing else touches it. -/
theorem executar_ger (st : Sessao) (op : Op) :
    (executar st op).ger = st.ger ∨ ∃ r, (executar st op).ger = (gerarPeca st.ger r).2 := by
  cases op with
  | jogar r =>
    simp only [executar, fazer_jogar]
    split
    · exact Or.inl rfl
    · exact Or.inr ⟨r, rfl⟩
  | reservar r =>
    simp only [executar, fazer_reservar]
    split
    · exact Or.inl rfl
    · split
      · exact Or.inl rfl
      · exact Or.inr ⟨r, rfl⟩
  | usar_reservada r =>
    simp only [executar, fazer_usar_reservada]
    split
    · exact Or.inl rfl
    · exact Or.inr ⟨r, rfl⟩
  | swap =>
    refine Or.inl ?_
    simp only [executar, fazer_swap]
    split
    · rfl
    · split <;> rfl
  | desfazer =>
    refine Or.inl ?_
    simp only [executar, desfazer]
    split <;> rfl
  | invert => exact Or.inl rfl

/-- The number of pieces generated never goes down. -/
theorem executar_emitidas_length (st : Sessao) (op : Op) :
    st.ger.emitidas.length ≤ (executar st op).ger.emitidas.length := by
  rcases executar_ger st op with h1 | ⟨r, h1⟩
  · rw [h1]
  · rw [h1]; simp [gerarPeca]

theorem sessao_apos_emitidas_length (ops : List Op) (st : Sessao) :
    st.ger.emitidas.length ≤ (sessao_apos ops st).ger.emitidas.length := by
  induction ops generalizing st with
  | nil => exact Nat.le_refl _
  | cons op ops ih => exact Nat.le_trans (executar_emitidas_length st op) (ih (executar st op))

theorem inverter_fila_involutiva {f : Fila} (h : fila_valida f) :
    inverter_fila (inverter_fila f) = f := by
  obtain ⟨a, b, c, d, e, fr, ct, rfl, h0, h4, hc0, hc5⟩ := fila_valida_formas h
  interval_cases fr <;> interval_cases ct <;> rfl

theorem inverter_pilha_involutiva {s : Pilha} (h : pilha_valida s) :
    inverter_pilha (inverter_pilha s) = s := by
  obtain ⟨x, y, z, tp, rfl, h0, h2⟩ := pilha_valida_formas h
  interval_cases tp <;> rfl

/-! ### Writing one slot -/

theorem getD_set_mesmo (l : List Peca) (p : Peca) {i : Nat} (h : i < l.length) :
    (l.set i p).getD i default = p := by
  simp [List.getD_eq_getElem?_getD, h]

theorem getD_set_outro (l : List Peca) (p : Peca) {i j : Nat} (h : j ≠ i) :
    (l.set i p).getD j default = l.getD j default := by
  simp [List.getD_eq_getElem?_getD, List.getElem?_set_ne (Ne.symm h)]

theorem fila_mostrar_set_frente {f : Fila} (t : Peca) (h : fila_valida f) (hq : 1 ≤ f.count) :
    fila_mostrar { f with dados := f.dados.set f.frente.toNat t }
      = t :: (fila_mostrar f).tail := by
  obtain ⟨a, b, c, d, e, fr, ct, rfl, h0, h4, hc0, hc5⟩ := fila_valida_formas h
  simp only at hq
  interval_cases fr <;> interval_cases ct <;> rfl

theorem pilha_base_topo_set_top {s : Pilha} (p : Peca) (h : pilha_valida s) (hs : 0 ≤ s.top) :
    pilha_base_topo { s with dados := s.dados.set s.top.toNat p }
      = (pilha_base_topo s).dropLast ++ [p] := by
  obtain ⟨x, y, z, tp, rfl, ht0, ht2⟩ := pilha_valida_formas h
  simp only at hs
  interval_cases tp <;> rfl

/-- What Swap does when neither structure is empty. -/
theorem fazer_swap_exito (st : Sessao) (hq : 1 ≤ st.fila.count) (hs : 0 ≤ st.pilha.top) :
    (fazer_swap st).1 =
      { fila := { st.fila with
                  dados := st.fila.dados.set st.fila.frente.toNat
                    (st.pilha.dados.getD st.pilha.top.toNat default) },
        pilha := { st.pilha with
                   dados := st.pilha.dados.set st.pilha.top.toNat
                     (st.fila.dados.getD st.fila.frente.toNat default) },
        undo := { st.undo with
                  acao := A_SWAP,
                  swap_fila := st.fila.dados.getD st.fila.frente.toNat default,
                  swap_pilha := st.pilha.dados.getD st.pilha.top.toNat default },
        ger := st.ger } := by
  have h1 : pilha_esta_vazia st.pilha = false := by
    simp only [pilha_esta_vazia, beq_eq_false_iff_ne, ne_eq]; omega
  have h2 : fila_esta_vazia st.fila = false := by
    simp only [fila_esta_vazia, beq_eq_false_iff_ne, ne_eq]; omega
  simp [fazer_swap, h1, h2]

/-! ### The circular buffer read as a list -/

theorem fila_mostrar_length {f : Fila} (h : fila_valida f) :
    ((fila_mostrar f).length : Int) = f.count := by
  have := h.2.2.2.1
  simp only [fila_mostrar, List.length_map, List.length_range]
  omega

theorem pilha_base_topo_length {s : Pilha} (h : pilha_valida s) :
    ((pilha_base_topo s).length : Int) = s.top + 1 := by
  have := h.2.1
  simp only [pilha_base_topo, pilha_mostrar, List.reverse_reverse, List.length_map,
    List.length_range]
  omega

theorem fila_enfileirar_refina {f : Fila} (p : Peca) (h : fila_valida f) :
    (fila_enfileirar f p).1 = (lista_enqueue_tail (fila_mostrar f) p).1
    ∧ fila_mostrar (fila_enfileirar f p).2 = (lista_enqueue_tail (fila_mostrar f) p).2 := by
  obtain ⟨a, b, c, d, e, fr, ct, rfl, h0, h4, hc0, hc5⟩ := fila_valida_formas h
  interval_cases fr <;> interval_cases ct <;> constructor <;> rfl

theorem fila_desenfileirar_refina {f : Fila} (out : Peca) (h : fila_valida f) :
    resultado (fila_desenfileirar f out).1 (fila_desenfileirar f out).2.2
        = (lista_dequeue_front (fila_mostrar f)).1
    ∧ fila_mostrar (fila_desenfileirar f out).2.1 = (lista_dequeue_front (fila_mostrar f)).2 := by
  obtain ⟨a, b, c, d, e, fr, ct, rfl, h0, h4, hc0, hc5⟩ := fila_valida_formas h
  interval_cases fr <;> interval_cases ct <;> constructor <;> rfl

theorem fila_dequeue_tail_refina {f : Fila} (out : Peca) (h : fila_valida f) :
    resultado (fila_dequeue_tail f out).1 (fila_dequeue_tail f out).2.2
        = (lista_dequeue_tail (fila_mostrar f)).1
    ∧ fila_mostrar (fila_dequeue_tail f out).2.1 = (lista_dequeue_tail (fila_mostrar f)).2 := by
  obtain ⟨a, b, c, d, e, fr, ct, rfl, h0, h4, hc0, hc5⟩ := fila_valida_formas h
  interval_cases fr <;> interval_cases ct <;> constructor <;> rfl

theorem fila_enqueue_front_refina {f : Fila} (p : Peca) (h : fila_valida f) :
    (fila_enqueue_front f p).1 = (lista_enqueue_front (fila_mostrar f) p).1
    ∧ fila_mostrar (fila_enqueue_front f p).2 = (lista_enqueue_front (fila_mostrar f) p).2 := by
  obtain ⟨a, b, c, d, e, fr, ct, rfl, h0, h4, hc0, hc5⟩ := fila_valida_formas h
  interval_cases fr <;> interval_cases ct <;> constructor <;> rfl

theorem fila_enfileirar_falha (f : Fila) (p : Peca) (h : (fila_enfileirar f p).1 = false) :
    (fila_enfileirar f p).2 = f := by
  unfold fila_enfileirar at h ⊢
  split
  · rfl
  · rename_i hc; rw [if_neg hc] at h; simp at h

theorem fila_enqueue_front_falha (f : Fila) (p : Peca)
    (h : (fila_enqueue_front f p).1 = false) : (fila_enqueue_front f p).2 = f := by
  unfold fila_enqueue_front at h ⊢
  split
  · rfl
  · rename_i hc; rw [if_neg hc] at h; simp at h

theorem fila_desenfileirar_falha (f : Fila) (out : Peca)
    (h : (fila_desenfileirar f out).1 = false) : (fila_desenfileirar f out).2 = (f, out) := by
  unfold fila_desenfileirar at h ⊢
  split
  · rfl
  · rename_i hc; rw [if_neg hc] at h; simp at h

theorem fila_dequeue_tail_falha (f : Fila) (out : Peca)
    (h : (fila_dequeue_tail f out).1 = false) : (fila_dequeue_tail f out).2 = (f, out) := by
  unfold fila_dequeue_tail at h ⊢
  split
  · rfl
  · rename_i hc; rw [if_neg hc] at h; simp at h

theorem fila_dequeue_tail_frente (f : Fila) (out : Peca) :
    (fila_dequeue_tail f out).2.1.frente = f.frente := by
  unfold fila_dequeue_tail
  split <;> rfl

theorem resultado_true {ok : Bool} {out : Peca} {o : Option Peca}
    (h : resultado ok out = o) (hk : ok = true) : some out = o := by
  subst hk; exact h


/-! ### Invert reverses -/

theorem inverter_fila_mostrar {f : Fila} (h : fila_valida f) :
    fila_mostrar (inverter_fila f) = (fila_mostrar f).reverse := by
  obtain ⟨a, b, c, d, e, fr, ct, rfl, h0, h4, hc0, hc5⟩ := fila_valida_formas h
  interval_cases fr <;> interval_cases ct <;> rfl

theorem inverter_pilha_base_topo {s : Pilha} (h : pilha_valida s) :
    pilha_base_topo (inverter_pilha s) = (pilha_base_topo s).reverse := by
  obtain ⟨x, y, z, tp, rfl, h0, h2⟩ := pilha_valida_formas h
  interval_cases tp <;> rfl


/-! ### UseReserved and its undo -/

theorem usar_reservada_registro (r : Nat) (st : Sessao) (ht : 0 ≤ st.pilha.top) :
    (fazer_usar_reservada r st).1.undo.had_new_enqueued = !fila_esta_cheia st.fila := by
  have h1 : pilha_esta_vazia st.pilha = false := by
    simp only [pilha_esta_vazia, beq_eq_false_iff_ne, ne_eq]; omega
  unfold fazer_usar_reservada
  simp only [h1, Bool.false_eq_true, if_false]
  unfold fila_enfileirar
  cases fila_esta_cheia st.fila <;> rfl

theorem usar_desfazer_sequencias (r : Nat) (st : Sessao) (hv : valida st)
    (ht : 0 ≤ st.pilha.top) :
    fila_mostrar (desfazer (fazer_usar_reservada r st).1).1.fila = fila_mostrar st.fila
    ∧ pilha_base_topo (desfazer (fazer_usar_reservada r st).1).1.pilha
        = pilha_base_topo st.pilha := by
  obtain ⟨fila, pilha, undo, ger⟩ := st
  obtain ⟨a, b, c, d, e, fr, ct, rfl, h0, h4, hc0, hc5⟩ := fila_valida_formas hv.1
  obtain ⟨x, y, z, tp, rfl, ht0, ht2⟩ := pilha_valida_formas hv.2
  simp only at ht
  interval_cases fr <;> interval_cases ct <;> interval_cases tp <;>
    constructor <;> rfl


/-! ### Who calls the generator -/

theorem fila_mostrar_head {f : Fila} (h : fila_valida f) (hq : 1 ≤ f.count) :
    (fila_mostrar f).head? = some (f.dados.getD f.frente.toNat default) := by
  obtain ⟨a, b, c, d, e, fr, ct, rfl, h0, h4, hc0, hc5⟩ := fila_valida_formas h
  simp only at hq
  interval_cases fr <;> interval_cases ct <;> rfl

theorem pilha_base_topo_getLast {s : Pilha} (h : pilha_valida s) (hs : 0 ≤ s.top) :
    (pilha_base_topo s).getLast? = some (s.dados.getD s.top.toNat default) := by
  obtain ⟨x, y, z, tp, rfl, ht0, ht2⟩ := pilha_valida_formas h
  simp only at hs
  interval_cases tp <;> rfl

theorem jogar_fila_cheia (r : Nat) (st : Sessao) (hv : valida st) (hc : st.fila.count = 5) :
    ∃ h t, fila_mostrar st.fila = h :: t
      ∧ fila_mostrar (fazer_jogar r st).1.fila = t ++ [(gerarPeca st.ger r).1]
      ∧ (fazer_jogar r st).1.fila.count = 5
      ∧ (fazer_jogar r st).1.pilha = st.pilha
      ∧ (fazer_jogar r st).1.undo.acao = A_PLAY
      ∧ (fazer_jogar r st).1.undo.had_new_enqueued = true
      ∧ (fazer_jogar r st).1.undo.peca_played = h
      ∧ (fazer_jogar r st).1.ger = (gerarPeca st.ger r).2 := by
  obtain ⟨fila, pilha, undo, ger⟩ := st
  obtain ⟨a, b, c, d, e, fr, ct, rfl, h0, h4, hc0, hc5⟩ := fila_valida_formas hv.1
  simp only at hc
  subst hc
  refine ⟨List.getD [a, b, c, d, e] fr.toNat default,
    (fila_mostrar { dados := [a, b, c, d, e], frente := fr, count := 5 }).tail, ?_⟩
  interval_cases fr <;> refine ⟨?_, ?_, ?_, ?_, ?_, ?_, ?_, ?_⟩ <;> rfl

theorem reservar_fila_cheia (r : Nat) (st : Sessao) (hv : valida st)
    (hc : st.fila.count = 5) (ht : st.pilha.top ≤ 1) :
    ∃ h t, fila_mostrar st.fila = h :: t
      ∧ fila_mostrar (fazer_reservar r st).1.fila = t ++ [(gerarPeca st.ger r).1]
      ∧ pilha_base_topo (fazer_reservar r st).1.pilha = pilha_base_topo st.pilha ++ [h]
      ∧ (fazer_reservar r st).1.fila.count = 5
      ∧ (fazer_reservar r st).1.undo.acao = A_RESERVE
      ∧ (fazer_reservar r st).1.ger = (gerarPeca st.ger r).2 := by
  obtain ⟨fila, pilha, undo, ger⟩ := st
  obtain ⟨a, b, c, d, e, fr, ct, rfl, h0, h4, hc0, hc5⟩ := fila_valida_formas hv.1
  obtain ⟨x, y, z, tp, rfl, ht0, ht2⟩ := pilha_valida_formas hv.2
  simp only at hc ht
  subst hc
  refine ⟨List.getD [a, b, c, d, e] fr.toNat default,
    (fila_mostrar { dados := [a, b, c, d, e], frente := fr, count := 5 }).tail, ?_⟩
  interval_cases fr <;> interval_cases tp <;>
    refine ⟨?_, ?_, ?_, ?_, ?_, ?_⟩ <;> rfl

theorem usar_fila_cheia (r : Nat) (st : Sessao) (hv : valida st)
    (hc : st.fila.count = 5) (ht : 0 ≤ st.pilha.top) :
    ∃ p S, pilha_base_topo st.pilha = S ++ [p]
      ∧ pilha_base_topo (fazer_usar_reservada r st).1.pilha = S
      ∧ (fazer_usar_reservada r st).1.fila = st.fila
      ∧ (fazer_usar_reservada r st).1.undo.acao = A_USE_RESERVED
      ∧ (fazer_usar_reservada r st).1.undo.had_new_enqueued = false
      ∧ (fazer_usar_reservada r st).1.undo.peca_played = p
      ∧ (fazer_usar_reservada r st).1.ger = (gerarPeca st.ger r).2 := by
  obtain ⟨⟨dados, fr, ct⟩, pilha, undo, ger⟩ := st
  obtain ⟨x, y, z, tp, rfl, ht0, ht2⟩ := pilha_valida_formas hv.2
  simp only at hc ht
  subst hc
  interval_cases tp
  · exact ⟨x, [], by rfl, by rfl, by rfl, by rfl, by rfl, by rfl, by rfl⟩
  · exact ⟨y, [x], by rfl, by rfl, by rfl, by rfl, by rfl, by rfl, by rfl⟩
  · exact ⟨z, [x, y], by rfl, by rfl, by rfl, by rfl, by rfl, by rfl, by rfl⟩

theorem swap_fila_cheia (st : Sessao) (hv : valida st) (hc : st.fila.count = 5)
    (ht : 0 ≤ st.pilha.top) :
    ∃ f t x S, fila_mostrar st.fila = f :: t
      ∧ pilha_base_topo st.pilha = S ++ [x]
      ∧ fila_mostrar (fazer_swap st).1.fila = x :: t
      ∧ pilha_base_topo (fazer_swap st).1.pilha = S ++ [f]
      ∧ (fazer_swap st).1.fila.count = 5
      ∧ (fazer_swap st).1.undo.acao = A_SWAP
      ∧ (fazer_swap st).1.undo.swap_fila = f
      ∧ (fazer_swap st).1.undo.swap_pilha = x
      ∧ (fazer_swap st).1.ger = st.ger := by
  obtain ⟨fila, pilha, undo, ger⟩ := st
  obtain ⟨a, b, c, d, e, fr, ct, rfl, h0, h4, hc0, hc5⟩ := fila_valida_formas hv.1
  obtain ⟨x, y, z, tp, rfl, ht0, ht2⟩ := pilha_valida_formas hv.2
  simp only at hc ht
  subst hc
  refine ⟨List.getD [a, b, c, d, e] fr.toNat default,
    (fila_mostrar { dados := [a, b, c, d, e], frente := fr, count := 5 }).tail,
    List.getD [x, y, z] tp.toNat default,
    (pilha_base_topo { dados := [x, y, z], top := tp }).dropLast, ?_⟩
  interval_cases fr <;> interval_cases tp <;>
    refine ⟨?_, ?_, ?_, ?_, ?_, ?_, ?_, ?_, ?_⟩ <;> rfl

theorem fazer_swap_pilha_vazia (st : Sessao) (ht : st.pilha.top = -1) : (fazer_swap st).1 = st := by
  unfold fazer_swap pilha_esta_vazia
  rw [ht]
  rfl

theorem fazer_reservar_pilha_cheia (r : Nat) (st : Sessao) (ht : st.pilha.top = 2) :
    (fazer_reservar r st).1 = st := by
  unfold fazer_reservar pilha_esta_cheia
  rw [ht]
  rfl

theorem fazer_usar_pilha_vazia (r : Nat) (st : Sessao) (ht : st.pilha.top = -1) :
    (fazer_usar_reservada r st).1 = st := by
  unfold fazer_usar_reservada pilha_esta_vazia
  rw [ht]
  rfl

theorem desfazer_play_fila_cheia (st : Sessao) (hv : valida st) (hc : st.fila.count = 5)
    (ha : st.undo.acao = A_PLAY) (hn : st.undo.had_new_enqueued = true) :
    ∃ i z, fila_mostrar st.fila = i ++ [z]
      ∧ fila_mostrar (desfazer st).1.fila = st.undo.peca_played :: i
      ∧ (desfazer st).1.fila.count = 5
      ∧ (desfazer st).1.pilha = st.pilha := by
  obtain ⟨fila, pilha, ⟨ac, pp, hne, ne, sf, sp⟩, ger⟩ := st
  obtain ⟨a, b, c, d, e, fr, ct, rfl, h0, h4, hc0, hc5⟩ := fila_valida_formas hv.1
  simp only at hc ha hn
  subst hc ha hn
  refine ⟨(fila_mostrar { dados := [a, b, c, d, e], frente := fr, count := 5 }).dropLast,
    (fila_mostrar { dados := [a, b, c, d, e], frente := fr, count := 5 }).getLastD default, ?_⟩
  interval_cases fr <;> refine ⟨?_, ?_, ?_, ?_⟩ <;> rfl

theorem desfazer_reserve_inalterado (st : Sessao) (hv : valida st) (hc : st.fila.count = 5)
    (ha : st.undo.acao = A_RESERVE) :
    (desfazer st).1.fila = st.fila ∧ (desfazer st).1.pilha = st.pilha := by
  obtain ⟨⟨dados, fr, ct⟩, pilha, ⟨ac, pp, hne, ne, sf, sp⟩, ger⟩ := st
  obtain ⟨x, y, z, tp, rfl, ht0, ht2⟩ := pilha_valida_formas hv.2
  simp only at hc ha
  subst hc ha
  interval_cases tp <;> constructor <;> rfl

theorem desfazer_usar_sem_nova (st : Sessao) (hv : valida st)
    (ha : st.undo.acao = A_USE_RESERVED) (hn : st.undo.had_new_enqueued = false) :
    (desfazer st).1.fila = st.fila
    ∧ ((desfazer st).1.pilha = st.pilha
        ∨ pilha_base_topo (desfazer st).1.pilha
            = pilha_base_topo st.pilha ++ [st.undo.peca_played]) := by
  obtain ⟨fila, pilha, ⟨ac, pp, hne, ne, sf, sp⟩, ger⟩ := st
  obtain ⟨x, y, z, tp, rfl, ht0, ht2⟩ := pilha_valida_formas hv.2
  simp only at ha hn
  subst ha hn
  interval_cases tp
  · exact ⟨by rfl, Or.inr (by rfl)⟩
  · exact ⟨by rfl, Or.inr (by rfl)⟩
  · exact ⟨by rfl, Or.inr (by rfl)⟩
  · exact ⟨by rfl, Or.inl (by rfl)⟩

theorem desfazer_swap_fila_cheia (st : Sessao) (hv : valida st) (hc : st.fila.count = 5)
    (ht : 0 ≤ st.pilha.top) (ha : st.undo.acao = A_SWAP) :
    ∃ f t x S, fila_mostrar st.fila = f :: t
      ∧ pilha_base_topo st.pilha = S ++ [x]
      ∧ fila_mostrar (desfazer st).1.fila = st.undo.swap_fila :: t
      ∧ pilha_base_topo (desfazer st).1.pilha = S ++ [st.undo.swap_pilha]
      ∧ (desfazer st).1.fila.count = 5 := by
  obtain ⟨fila, pilha, ⟨ac, pp, hne, ne, sf, sp⟩, ger⟩ := st
  obtain ⟨a, b, c, d, e, fr, ct, rfl, h0, h4, hc0, hc5⟩ := fila_valida_formas hv.1
  obtain ⟨x, y, z, tp, rfl, ht0, ht2⟩ := pilha_valida_formas hv.2
  simp only at hc ht ha
  subst hc ha
  refine ⟨List.getD [a, b, c, d, e] fr.toNat default,
    (fila_mostrar { dados := [a, b, c, d, e], frente := fr, count := 5 }).tail,
    List.getD [x, y, z] tp.toNat default,
    (pilha_base_topo { dados := [x, y, z], top := tp }).dropLast, ?_⟩
  interval_cases fr <;> interval_cases tp <;>
    refine ⟨?_, ?_, ?_, ?_, ?_⟩ <;> rfl

theorem desfazer_swap_pilha_vazia (st : Sessao) (ht : st.pilha.top = -1)
    (ha : st.undo.acao = A_SWAP) :
    (desfazer st).1.fila = st.fila ∧ (desfazer st).1.pilha = st.pilha := by
  obtain ⟨fila, ⟨pd, tp⟩, ⟨ac, pp, hne, ne, sf, sp⟩, ger⟩ := st
  simp only at ht ha
  subst ht ha
  have hvz : pilha_esta_vazia { dados := pd, top := -1 } = true := rfl
  simp [desfazer, limpar_undo, desfazer_swap, hvz]

theorem desfazer_acao (st : Sessao) : (desfazer st).1.undo.acao = A_NENHUMA := by
  obtain ⟨f, s, ⟨acao, pp, hn, ne, sf, sp⟩, g⟩ := st
  cases acao <;> rfl

/-! ### Rearrangements of the pieces held -/

theorem desfazer_play_sem_nova (st : Sessao) (hc : st.fila.count = 5)
    (ha : st.undo.acao = A_PLAY) (hn : st.undo.had_new_enqueued = false) :
    (desfazer st).1.fila = st.fila ∧ (desfazer st).1.pilha = st.pilha := by
  obtain ⟨⟨dados, fr, ct⟩, pilha, ⟨ac, pp, hne, ne, sf, sp⟩, ger⟩ := st
  simp only at hc ha hn
  subst hc ha hn
  constructor <;> rfl

theorem desfazer_nada (st : Sessao) (ha : st.undo.acao = A_NENHUMA) :
    desfazer st = (st, [Msg.nada_para_desfazer]) := by
  unfold desfazer
  rw [ha]

theorem desfazer_invert_efeito (st : Sessao) (ha : st.undo.acao = A_INVERT) :
    (desfazer st).1.fila = inverter_fila st.fila
    ∧ (desfazer st).1.pilha = inverter_pilha st.pilha := by
  unfold desfazer
  rw [ha]
  exact ⟨rfl, rfl⟩

theorem jogar_cheia (r : Nat) {st : Sessao} (h : sessao_cheia st) :
    sessao_cheia (fazer_jogar r st).1 := by
  obtain ⟨hv, hc, _⟩ := h
  obtain ⟨p, t, _, _, hc2, _, ha, _, _, _⟩ := jogar_fila_cheia r st hv hc
  exact ⟨fazer_jogar_valida r hv, hc2, fun hu => by rw [ha] at hu; cases hu⟩

theorem reservar_cheia (r : Nat) {st : Sessao} (h : sessao_cheia st) :
    sessao_cheia (fazer_reservar r st).1 := by
  by_cases ht : st.pilha.top = 2
  · rw [fazer_reservar_pilha_cheia r st ht]; exact h
  · obtain ⟨hv, hc, _⟩ := h
    have ht1 : st.pilha.top ≤ 1 := by have := hv.2.2.2; omega
    obtain ⟨p, t, _, _, _, hc2, ha, _⟩ := reservar_fila_cheia r st hv hc ht1
    exact ⟨fazer_reservar_valida r hv, hc2, fun hu => by rw [ha] at hu; cases hu⟩

theorem usar_cheia (r : Nat) {st : Sessao} (h : sessao_cheia st) :
    sessao_cheia (fazer_usar_reservada r st).1 := by
  by_cases ht : st.pilha.top = -1
  · rw [fazer_usar_pilha_vazia r st ht]; exact h
  · obtain ⟨hv, hc, _⟩ := h
    have ht0 : 0 ≤ st.pilha.top := by have := hv.2.2.1; omega
    obtain ⟨p, S, _, _, hf2, _, hn, _, _⟩ := usar_fila_cheia r st hv hc ht0
    exact ⟨fazer_usar_reservada_valida r hv, by rw [hf2]; exact hc, fun _ => hn⟩

theorem swap_cheia {st : Sessao} (h : sessao_cheia st) : sessao_cheia (fazer_swap st).1 := by
  by_cases ht : st.pilha.top = -1
  · rw [fazer_swap_pilha_vazia st ht]; exact h
  · obtain ⟨hv, hc, _⟩ := h
    have ht0 : 0 ≤ st.pilha.top := by have := hv.2.2.1; omega
    obtain ⟨f, t, x, S, _, _, _, _, hc2, ha, _, _, _⟩ := swap_fila_cheia st hv hc ht0
    exact ⟨fazer_swap_valida hv, hc2, fun hu => by rw [ha] at hu; cases hu⟩

theorem invert_cheia {st : Sessao} (h : sessao_cheia st) : sessao_cheia (fazer_invert st).1 :=
  ⟨fazer_invert_valida h.1, h.2.1, fun hu => by cases hu⟩

theorem desfazer_cheia {st : Sessao} (h : sessao_cheia st) : sessao_cheia (desfazer st).1 := by
  obtain ⟨hv, hc, hu⟩ := h
  have hfim : (desfazer st).1.undo.acao = A_USE_RESERVED →
      (desfazer st).1.undo.had_new_enqueued = false := by
    intro hx; rw [desfazer_acao st] at hx; cases hx
  refine ⟨desfazer_valida hv, ?_, hfim⟩
  cases ha : st.undo.acao with
  | A_NENHUMA => rw [desfazer_nada st ha]; exact hc
  | A_PLAY =>
    cases hn : st.undo.had_new_enqueued with
    | true => exact (desfazer_play_fila_cheia st hv hc ha hn).choose_spec.choose_spec.2.2.1
    | false => rw [(desfazer_play_sem_nova st hc ha hn).1]; exact hc
  | A_RESERVE => rw [(desfazer_reserve_inalterado st hv hc ha).1]; exact hc
  | A_USE_RESERVED => rw [(desfazer_usar_sem_nova st hv ha (hu ha)).1]; exact hc
  | A_SWAP =>
    by_cases ht : st.pilha.top = -1
    · rw [(desfazer_swap_pilha_vazia st ht ha).1]; exact hc
    · have ht0 : 0 ≤ st.pilha.top := by have := hv.2.2.1; omega
      obtain ⟨f, t, x, S, _, _, _, _, hc2⟩ := desfazer_swap_fila_cheia st hv hc ht0 ha
      exact hc2
  | A_INVERT => rw [(desfazer_invert_efeito st ha).1]; exact hc

theorem executar_cheia {st : Sessao} (op : Op) (h : sessao_cheia st) :
    sessao_cheia (executar st op) := by
  cases op with
  | jogar r => exact jogar_cheia r h
  | reservar r => exact reservar_cheia r h
  | usar_reservada r => exact usar_cheia r h
  | swap => exact swap_cheia h
  | desfazer => exact desfazer_cheia h
  | invert => exact invert_cheia h

theorem nova_sessao_e_cheia (i : Indeterminado) (rs : Nat → Nat) :
    sessao_cheia (nova_sessao i rs) :=
  ⟨nova_sessao_valida i rs, by rfl, fun hu => by
    have h : (nova_sessao i rs).undo.acao = A_NENHUMA := by rfl
    rw [h] at hu; cases hu⟩

theorem sessao_apos_cheia (ops : List Op) {st : Sessao} (h : sessao_cheia st) :
    sessao_cheia (sessao_apos ops st) := by
  induction ops generalizing st with
  | nil => exact h
  | cons op ops ih => exact ih (executar_cheia op h)

/-! ### The invariant of a running session -/

theorem fila_enfileirar_verificado_ok {f : Fila} (p : Peca) (h : fila_valida f) :
    fila_enfileirar_verificado f p = some (fila_enfileirar f p) := by
  obtain ⟨a, b, c, d, e, fr, ct, rfl, h0, h4, hc0, hc5⟩ := fila_valida_formas h
  interval_cases fr <;> interval_cases ct <;> rfl

theorem fila_desenfileirar_verificado_ok {f : Fila} (out : Peca) (h : fila_valida f) :
    fila_desenfileirar_verificado f out = some (fila_desenfileirar f out) := by
  obtain ⟨a, b, c, d, e, fr, ct, rfl, h0, h4, hc0, hc5⟩ := fila_valida_formas h
  interval_cases fr <;> interval_cases ct <;> rfl

theorem fila_dequeue_tail_verificado_ok {f : Fila} (out : Peca) (h : fila_valida f) :
    fila_dequeue_tail_verificado f out = some (fila_dequeue_tail f out) := by
  obtain ⟨a, b, c, d, e, fr, ct, rfl, h0, h4, hc0, hc5⟩ := fila_valida_formas h
  interval_cases fr <;> interval_cases ct <;> rfl

theorem fila_enqueue_front_verificado_ok {f : Fila} (p : Peca) (h : fila_valida f) :
    fila_enqueue_front_verificado f p = some (fila_enqueue_front f p) := by
  obtain ⟨a, b, c, d, e, fr, ct, rfl, h0, h4, hc0, hc5⟩ := fila_valida_formas h
  interval_cases fr <;> interval_cases ct <;> rfl

theorem pilha_push_verificado_ok {s : Pilha} (p : Peca) (h : pilha_valida s) :
    pilha_push_verificado s p = some (pilha_push s p) := by
  obtain ⟨x, y, z, tp, rfl, h0, h2⟩ := pilha_valida_formas h
  interval_cases tp <;> rfl

theorem pilha_pop_verificado_ok {s : Pilha} (out : Peca) (h : pilha_valida s) :
    pilha_pop_verificado s out = some (pilha_pop s out) := by
  obtain ⟨x, y, z, tp, rfl, h0, h2⟩ := pilha_valida_formas h
  interval_cases tp <;> rfl

theorem inverter_fila_verificado_ok {f : Fila} (h : fila_valida f) :
    inverter_fila_verificado f = some (inverter_fila f) := by
  obtain ⟨a, b, c, d, e, fr, ct, rfl, h0, h4, hc0, hc5⟩ := fila_valida_formas h
  interval_cases fr <;> interval_cases ct <;> rfl

theorem inverter_pilha_verificado_ok {s : Pilha} (h : pilha_valida s) :
    inverter_pilha_verificado s = some (inverter_pilha s) := by
  obtain ⟨x, y, z, tp, rfl, h0, h2⟩ := pilha_valida_formas h
  interval_cases tp <;> rfl

theorem fazer_jogar_verificado_ok (r : Nat) {st : Sessao} (hv : valida st) :
    fazer_jogar_verificado r st = some (fazer_jogar r st) := by
  unfold fazer_jogar_verificado fazer_jogar
  split
  · rfl
  · rw [fila_desenfileirar_verificado_ok _ hv.1]
    simp only [Option.bind_eq_bind, Option.some_bind]
    rw [fila_enfileirar_verificado_ok _ (fila_desenfileirar_valida _ hv.1)]
    rfl

theorem fazer_reservar_verificado_ok (r : Nat) {st : Sessao} (hv : valida st) :
    fazer_reservar_verificado r st = some (fazer_reservar r st) := by
  unfold fazer_reservar_verificado fazer_reservar
  split
  · rfl
  · split
    · rfl
    · rw [fila_desenfileirar_verificado_ok _ hv.1]
      simp only [Option.bind_eq_bind, Option.some_bind]
      rw [pilha_push_verificado_ok _ hv.2]
      simp only [Option.bind_eq_bind, Option.some_bind]
      rw [fila_enfileirar_verificado_ok _ (fila_desenfileirar_valida _ hv.1)]
      rfl

theorem fazer_usar_reservada_verificado_ok (r : Nat) {st : Sessao} (hv : valida st) :
    fazer_usar_reservada_verificado r st = some (fazer_usar_reservada r st) := by
  unfold fazer_usar_reservada_verificado fazer_usar_reservada
  split
  · rfl
  · rw [pilha_pop_verificado_ok _ hv.2]
    simp only [Option.bind_eq_bind, Option.some_bind]
    rw [fila_enfileirar_verificado_ok _ hv.1]
    rfl

theorem fazer_swap_verificado_ok {st : Sessao} (hv : valida st) :
    fazer_swap_verificado st = some (fazer_swap st) := by
  obtain ⟨fila, pilha, undo, ger⟩ := st
  obtain ⟨a, b, c, d, e, fr, ct, rfl, h0, h4, hc0, hc5⟩ := fila_valida_formas hv.1
  obtain ⟨x, y, z, tp, rfl, ht0, ht2⟩ := pilha_valida_formas hv.2
  interval_cases fr <;> interval_cases ct <;> interval_cases tp <;> rfl

theorem fazer_invert_verificado_ok {st : Sessao} (hv : valida st) :
    fazer_invert_verificado st = some (fazer_invert st) := by
  unfold fazer_invert_verificado fazer_invert
  rw [inverter_fila_verificado_ok hv.1, inverter_pilha_verificado_ok hv.2]
  rfl

theorem desfazer_play_verificado_ok {f : Fila} {s : Pilha} (u : UndoInfo)
    (hf : fila_valida f) :
    desfazer_play_verificado f s u = some (desfazer_play f s u) := by
  unfold desfazer_play_verificado desfazer_play
  have h1 := fila_dequeue_tail_valida default hf
  rw [fila_dequeue_tail_verificado_ok _ hf, fila_enqueue_front_verificado_ok _ hf]
  simp only [Option.bind_eq_bind, Option.some_bind]
  rw [fila_enqueue_front_verificado_ok _ h1]
  simp only [Option.bind_eq_bind, Option.some_bind]
  rw [fila_enfileirar_verificado_ok _ (fila_enqueue_front_valida _ h1)]
  simp only [Option.bind_eq_bind, Option.some_bind]
  split_ifs <;> rfl

theorem desfazer_reserve_verificado_ok {f : Fila} {s : Pilha} (u : UndoInfo)
    (hf : fila_valida f) (hs : pilha_valida s) :
    desfazer_reserve_verificado f s u = some (desfazer_reserve f s u) := by
  unfold desfazer_reserve_verificado desfazer_reserve
  have h1 := pilha_pop_valida default hs
  rw [pilha_pop_verificado_ok _ hs]
  simp only [Option.bind_eq_bind, Option.some_bind]
  rw [fila_enqueue_front_verificado_ok _ hf]
  simp only [Option.bind_eq_bind, Option.some_bind]
  rw [pilha_push_verificado_ok _ h1, fila_dequeue_tail_verificado_ok _ (fila_enqueue_front_valida _ hf)]
  simp only [Option.bind_eq_bind, Option.some_bind]
  split_ifs <;> rfl

theorem desfazer_usar_verificado_ok {f : Fila} {s : Pilha} (u : UndoInfo)
    (hf : fila_valida f) (hs : pilha_valida s) :
    desfazer_usar_verificado f s u = some (desfazer_usar f s u) := by
  unfold desfazer_usar_verificado desfazer_usar
  rw [fila_dequeue_tail_verificado_ok _ hf, pilha_push_verificado_ok _ hs]
  simp only [Option.bind_eq_bind, Option.some_bind]
  rw [fila_enfileirar_verificado_ok _ (fila_dequeue_tail_valida _ hf)]
  simp only [Option.bind_eq_bind, Option.some_bind]
  split_ifs <;> rfl

theorem desfazer_swap_verificado_ok {f : Fila} {s : Pilha} (u : UndoInfo)
    (hf : fila_valida f) (hs : pilha_valida s) :
    desfazer_swap_verificado f s u = some (desfazer_swap f s u) := by
  obtain ⟨a, b, c, d, e, fr, ct, rfl, h0, h4, hc0, hc5⟩ := fila_valida_formas hf
  obtain ⟨x, y, z, tp, rfl, ht0, ht2⟩ := pilha_valida_formas hs
  interval_cases fr <;> interval_cases ct <;> interval_cases tp <;> rfl

theorem desfazer_verificado_ok {st : Sessao} (hv : valida st) :
    desfazer_verificado st = some (desfazer st) := by
  have hf := hv.1
  have hs := hv.2
  obtain ⟨f, s, ⟨acao, pp, hn, ne, sf, sp⟩, g⟩ := st
  cases acao
  · rfl
  · show Option.map _ (desfazer_play_verificado f s _) = _
    rw [desfazer_play_verificado_ok _ hf]; rfl
  · show Option.map _ (desfazer_reserve_verificado f s _) = _
    rw [desfazer_reserve_verificado_ok _ hf hs]; rfl
  · show Option.map _ (desfazer_usar_verificado f s _) = _
    rw [desfazer_usar_verificado_ok _ hf hs]; rfl
  · show Option.map _ (desfazer_swap_verificado f s _) = _
    rw [desfazer_swap_verificado_ok _ hf hs]; rfl
  · show Option.map _ (desfazer_invert_verificado f s) = _
    unfold desfazer_invert_verificado
    rw [inverter_fila_verificado_ok hf, inverter_pilha_verificado_ok hs]; rfl

theorem operandos_nao_negativos {f : Fila} (h : fila_valida f) :
    0 ≤ f.frente + f.count ∧ 0 ≤ f.frente + 1
    ∧ (f.count ≠ 0 → 0 ≤ f.frente + f.count - 1 + FILA_CAP)
    ∧ 0 ≤ f.frente - 1 + FILA_CAP
    ∧ (∀ i : Nat, (i : Int) < Int.tdiv f.count 2 →
        0 ≤ f.frente + (i : Int) ∧ 0 ≤ f.frente + f.count - 1 - (i : Int) + FILA_CAP) := by
  obtain ⟨_, h0, h4, hc0, hc5⟩ := h
  refine ⟨by omega, by omega, fun _ => by simp only [FILA_CAP]; omega,
    by simp only [FILA_CAP]; omega, ?_⟩
  intro i hi
  rw [Int.tdiv_eq_ediv hc0 (by decide)] at hi
  simp only [FILA_CAP]
  omega

theorem swap_sem_pilha (st : Sessao) (ht : st.pilha.top = -1) :
    fazer_swap st = (st, [Msg.swap_pilha_vazia])
    ∧ (st.undo.acao = A_SWAP →
        (desfazer st).1.fila = st.fila ∧ (desfazer st).1.pilha = st.pilha
        ∧ (desfazer st).2 = [Msg.undo_swap_erro]) := by
  constructor
  · unfold fazer_swap pilha_esta_vazia
    rw [ht]
    rfl
  · intro ha
    obtain ⟨fila, ⟨pd, tp⟩, ⟨ac, pp, hne, ne, sf, sp⟩, ger⟩ := st
    simp only at ht ha
    subst ht ha
    have hvz : pilha_esta_vazia { dados := pd, top := -1 } = true := rfl
    simp [desfazer, limpar_undo, desfazer_swap, hvz]

/-! ### Long runs of Play -/

/-- C1: evaluation of Reserve followed by Undo on a fresh session (queue ids
1..5, empty stack).  Undo pops the reserved piece, finds the queue full, pushes
the piece back and reports the failure: the queue is left as 2, 3, 4, 5, 6 and
the stack as 1, so the state before Reserve is not restored. -/
theorem reservar_desfazer_fila_cheia :
    (fila_mostrar sessao_inicial.fila).map Peca.id = [1, 2, 3, 4, 5]
    ∧ (pilha_base_topo sessao_inicial.pilha).map Peca.id = []
    ∧ (fila_mostrar (desfazer (fazer_reservar 5 sessao_inicial).1).1.fila).map Peca.id
        = [2, 3, 4, 5, 6]
    ∧ (pilha_base_topo (desfazer (fazer_reservar 5 sessao_inicial).1).1.pilha).map Peca.id
        = [1]
    ∧ (desfazer (fazer_reservar 5 sessao_inicial).1).2 = [Msg.undo_reserve_erro_recolocar] :=
  ⟨rfl, rfl, rfl, rfl, rfl⟩

/-- C2: on a valid state whose queue is not empty, Play followed by Undo gives
back the queue's front-to-tail sequence, its count and its front index, and the
stack is untouched. -/
theorem jogar_desfazer_restaura (r : Nat) (st : Sessao) (hv : valida st)
    (hc : 1 ≤ st.fila.count) :
    fila_mostrar (desfazer (fazer_jogar r st).1).1.fila = fila_mostrar st.fila
    ∧ (desfazer (fazer_jogar r st).1).1.fila.count = st.fila.count
    ∧ (desfazer (fazer_jogar r st).1).1.fila.frente = st.fila.frente
    ∧ (desfazer (fazer_jogar r st).1).1.pilha = st.pilha := by
  obtain ⟨fila, pilha, undo, ger⟩ := st
  obtain ⟨a, b, c, d, e, fr, ct, rfl, h0, h4, hc0, hc5⟩ := fila_valida_formas hv.1
  simp only at hc
  interval_cases fr <;> interval_cases ct <;> refine ⟨?_, ?_, ?_, ?_⟩ <;> rfl

theorem jogar_desfazer_restaura_witness :
    valida sessao_tres_reservas ∧ 1 ≤ sessao_tres_reservas.fila.count
    ∧ fila_mostrar (desfazer (fazer_jogar 4 sessao_tres_reservas).1).1.fila
        = fila_mostrar sessao_tres_reservas.fila
    ∧ (desfazer (fazer_jogar 4 sessao_tres_reservas).1).1.fila.count
        = sessao_tres_reservas.fila.count
    ∧ (desfazer (fazer_jogar 4 sessao_tres_reservas).1).1.fila.frente
        = sessao_tres_reservas.fila.frente
    ∧ (desfazer (fazer_jogar 4 sessao_tres_reservas).1).1.pilha
        = sessao_tres_reservas.pilha :=
  ⟨by decide, by decide,
   jogar_desfazer_restaura 4 sessao_tres_reservas (by decide) (by decide)⟩

/-- C3: after any finite sequence of play, reserve, use-reserved, swap, invert
and undo from a new session (whatever the locals of `main` held before), and
after every prefix of it, the queue count is between 0 and 5 and the stack top
between -1 and 2. -/
theorem limites_em_toda_sessao (i : Indeterminado) (rs : Nat → Nat) (ops : List Op)
    (k : Nat) :
    0 ≤ (sessao_apos (ops.take k) (nova_sessao i rs)).fila.count
    ∧ (sessao_apos (ops.take k) (nova_sessao i rs)).fila.count ≤ 5
    ∧ -1 ≤ (sessao_apos (ops.take k) (nova_sessao i rs)).pilha.top
    ∧ (sessao_apos (ops.take k) (nova_sessao i rs)).pilha.top ≤ 2 := by
  obtain ⟨⟨_, _, _, hc0, hc5⟩, _, ht0, ht2⟩ :=
    sessao_apos_valida (ops.take k) (nova_sessao_valida i rs)
  exact ⟨hc0, hc5, ht0, ht2⟩

/-- C5: on a valid state with a non-empty queue and a non-empty stack, Swap
writes the former stack top into the queue's front slot and the former queue
front into the stack's top slot, and changes no other slot, nor the count, the
front index or the top; read as sequences, the queue becomes the former top
followed by the former rest of the queue, and the stack keeps all but its last
piece, followed by the former front.  The undo record gets the tag Swap with the
former front and the former top as payload; the generator is not called. -/
theorem swap_troca_frente_e_topo (st : Sessao) (hv : valida st)
    (hq : 1 ≤ st.fila.count) (hs : 0 ≤ st.pilha.top) :
    (fazer_swap st).1.fila.dados.getD st.fila.frente.toNat default
        = st.pilha.dados.getD st.pilha.top.toNat default
    ∧ (fazer_swap st).1.pilha.dados.getD st.pilha.top.toNat default
        = st.fila.dados.getD st.fila.frente.toNat default
    ∧ (fazer_swap st).1.fila.count = st.fila.count
    ∧ (fazer_swap st).1.fila.frente = st.fila.frente
    ∧ (fazer_swap st).1.pilha.top = st.pilha.top
    ∧ (∀ i : Nat, i ≠ st.fila.frente.toNat →
        (fazer_swap st).1.fila.dados.getD i default = st.fila.dados.getD i default)
    ∧ (∀ j : Nat, j ≠ st.pilha.top.toNat →
        (fazer_swap st).1.pilha.dados.getD j default = st.pilha.dados.getD j default)
    ∧ fila_mostrar (fazer_swap st).1.fila
        = st.pilha.dados.getD st.pilha.top.toNat default :: (fila_mostrar st.fila).tail
    ∧ pilha_base_topo (fazer_swap st).1.pilha
        = (pilha_base_topo st.pilha).dropLast ++ [st.fila.dados.getD st.fila.frente.toNat default]
    ∧ (fazer_swap st).1.undo
        = { st.undo with acao := A_SWAP,
                         swap_fila := st.fila.dados.getD st.fila.frente.toNat default,
                         swap_pilha := st.pilha.dados.getD st.pilha.top.toNat default }
    ∧ (fazer_swap st).1.ger = st.ger := by
  have hfr : st.fila.frente.toNat < st.fila.dados.length := by
    have := hv.1.1; have := hv.1.2.1; have := hv.1.2.2.1; omega
  have htp : st.pilha.top.toNat < st.pilha.dados.length := by
    have := hv.2.1; have := hv.2.2.2; omega
  have he := fazer_swap_exito st hq hs
  rw [he]
  exact ⟨getD_set_mesmo _ _ hfr, getD_set_mesmo _ _ htp, rfl, rfl, rfl,
    fun i hi => getD_set_outro _ _ hi, fun j hj => getD_set_outro _ _ hj,
    fila_mostrar_set_frente _ hv.1 hq, pilha_base_topo_set_top _ hv.2 hs, rfl, rfl⟩

theorem swap_troca_frente_e_topo_witness :
    valida sessao_tres_reservas
    ∧ 1 ≤ sessao_tres_reservas.fila.count ∧ 0 ≤ sessao_tres_reservas.pilha.top
    ∧ (fila_mostrar sessao_tres_reservas.fila).map Peca.id = [4, 5, 6, 7, 8]
    ∧ (pilha_base_topo sessao_tres_reservas.pilha).map Peca.id = [1, 2, 3]
    ∧ (fila_mostrar (fazer_swap sessao_tres_reservas).1.fila).map Peca.id = [3, 5, 6, 7, 8]
    ∧ (pilha_base_topo (fazer_swap sessao_tres_reservas).1.pilha).map Peca.id = [1, 2, 4] :=
  have h := swap_troca_frente_e_topo sessao_tres_reservas (by decide) (by decide) (by decide)
  ⟨by decide, by decide, by decide, by rfl, by rfl,
   congrArg (List.map Peca.id) h.2.2.2.2.2.2.2.1,
   congrArg (List.map Peca.id) h.2.2.2.2.2.2.2.2.1⟩

/-- C6: on a valid state with a non-empty queue and a non-empty stack, Swap
followed by Undo gives back the queue's front-to-tail sequence and the stack's
bottom-to-top sequence; indeed the queue and the stack are restored slot by slot. -/
theorem swap_desfazer_restaura (st : Sessao) (hv : valida st)
    (hq : 1 ≤ st.fila.count) (hs : 0 ≤ st.pilha.top) :
    fila_mostrar (desfazer (fazer_swap st).1).1.fila = fila_mostrar st.fila
    ∧ pilha_base_topo (desfazer (fazer_swap st).1).1.pilha = pilha_base_topo st.pilha
    ∧ (desfazer (fazer_swap st).1).1.fila = st.fila
    ∧ (desfazer (fazer_swap st).1).1.pilha = st.pilha := by
  obtain ⟨fila, pilha, undo, ger⟩ := st
  obtain ⟨a, b, c, d, e, fr, ct, rfl, h0, h4, hc0, hc5⟩ := fila_valida_formas hv.1
  obtain ⟨x, y, z, tp, rfl, ht0, ht2⟩ := pilha_valida_formas hv.2
  simp only at hq hs
  interval_cases fr <;> interval_cases ct <;> interval_cases tp <;>
    refine ⟨?_, ?_, ?_, ?_⟩ <;> rfl

theorem swap_desfazer_restaura_witness :
    valida sessao_tres_reservas
    ∧ 1 ≤ sessao_tres_reservas.fila.count ∧ 0 ≤ sessao_tres_reservas.pilha.top
    ∧ fila_mostrar (desfazer (fazer_swap sessao_tres_reservas).1).1.fila
        = fila_mostrar sessao_tres_reservas.fila
    ∧ pilha_base_topo (desfazer (fazer_swap sessao_tres_reservas).1).1.pilha
        = pilha_base_topo sessao_tres_reservas.pilha
    ∧ (desfazer (fazer_swap sessao_tres_reservas).1).1.fila = sessao_tres_reservas.fila
    ∧ (desfazer (fazer_swap sessao_tres_reservas).1).1.pilha = sessao_tres_reservas.pilha :=
  ⟨by decide, by decide, by decide,
   swap_desfazer_restaura sessao_tres_reservas (by decide) (by decide) (by decide)⟩

/-- C7: on every valid state (any count 0..5, any front index, any stack size
0..3) Invert followed by Invert, and Invert followed by Undo, give back the
queue's front-to-tail sequence and the stack's bottom-to-top sequence. -/
theorem invert_duas_vezes_restaura (st : Sessao) (hv : valida st) :
    fila_mostrar (fazer_invert (fazer_invert st).1).1.fila = fila_mostrar st.fila
    ∧ pilha_base_topo (fazer_invert (fazer_invert st).1).1.pilha = pilha_base_topo st.pilha
    ∧ fila_mostrar (desfazer (fazer_invert st).1).1.fila = fila_mostrar st.fila
    ∧ pilha_base_topo (desfazer (fazer_invert st).1).1.pilha = pilha_base_topo st.pilha := by
  have hf : inverter_fila (inverter_fila st.fila) = st.fila := inverter_fila_involutiva hv.1
  have hp : inverter_pilha (inverter_pilha st.pilha) = st.pilha :=
    inverter_pilha_involutiva hv.2
  refine ⟨congrArg fila_mostrar hf, congrArg pilha_base_topo hp,
    congrArg fila_mostrar hf, congrArg pilha_base_topo hp⟩

theorem invert_duas_vezes_restaura_witness :
    valida sessao_tres_reservas
    ∧ fila_mostrar (fazer_invert (fazer_invert sessao_tres_reservas).1).1.fila
        = fila_mostrar sessao_tres_reservas.fila
    ∧ pilha_base_topo (fazer_invert (fazer_invert sessao_tres_reservas).1).1.pilha
        = pilha_base_topo sessao_tres_reservas.pilha
    ∧ fila_mostrar (desfazer (fazer_invert sessao_tres_reservas).1).1.fila
        = fila_mostrar sessao_tres_reservas.fila
    ∧ pilha_base_topo (desfazer (fazer_invert sessao_tres_reservas).1).1.pilha
        = pilha_base_topo sessao_tres_reservas.pilha :=
  ⟨by decide, invert_duas_vezes_restaura sessao_tres_reservas (by decide)⟩

/-- C8: whatever the state and the undo record, after one call of Undo the
record's tag is None; a call of Undo on a record whose tag is None prints
"nothing to undo" and changes nothing; hence a second Undo in a row always
reports nothing to undo and changes nothing. -/
theorem desfazer_consome_registro (st : Sessao) :
    (desfazer st).1.undo.acao = A_NENHUMA
    ∧ (st.undo.acao = A_NENHUMA → desfazer st = (st, [Msg.nada_para_desfazer]))
    ∧ desfazer (desfazer st).1 = ((desfazer st).1, [Msg.nada_para_desfazer]) := by
  have h1 : ∀ t : Sessao, (desfazer t).1.undo.acao = A_NENHUMA := by
    intro t
    obtain ⟨f, s, ⟨acao, pp, hn, ne, sf, sp⟩, g⟩ := t
    cases acao <;> rfl
  have h2 : ∀ t : Sessao, t.undo.acao = A_NENHUMA →
      desfazer t = (t, [Msg.nada_para_desfazer]) := by
    intro t ht
    unfold desfazer
    rw [ht]
  exact ⟨h1 st, h2 st, h2 _ (h1 st)⟩

theorem desfazer_consome_registro_witness :
    sessao_inicial.undo.acao = A_NENHUMA
    ∧ desfazer sessao_inicial = (sessao_inicial, [Msg.nada_para_desfazer])
    ∧ (desfazer sessao_invertida).1.undo.acao = A_NENHUMA :=
  ⟨rfl, (desfazer_consome_registro sessao_inicial).2.1 rfl,
   (desfazer_consome_registro sessao_invertida).1⟩

/-- C9: whatever the locals of `main` held before and whatever kinds are drawn,
a new session has a queue with front index 0 and count 5 whose pieces, front to
tail, have the ids 1, 2, 3, 4, 5 and the kinds drawn in that order, an empty
stack (top = -1), an undo record with tag None, and the id counter at 6. -/
theorem nova_sessao_cheia (i : Indeterminado) (rs : Nat → Nat) :
    (nova_sessao i rs).fila.count = 5
    ∧ (nova_sessao i rs).fila.frente = 0
    ∧ (fila_mostrar (nova_sessao i rs).fila).map Peca.id = [1, 2, 3, 4, 5]
    ∧ (fila_mostrar (nova_sessao i rs).fila).map Peca.nome
        = (List.range 5).map (fun (k : Nat) => TIPOS.getD (rs k % NUM_TIPOS) "")
    ∧ (nova_sessao i rs).pilha.top = -1
    ∧ pilha_base_topo (nova_sessao i rs).pilha = []
    ∧ (nova_sessao i rs).undo.acao = A_NENHUMA
    ∧ (nova_sessao i rs).ger.next_id = 6 := by
  refine ⟨?_, ?_, ?_, ?_, ?_, ?_, ?_, ?_⟩ <;> rfl

/-- C10: when the stack holds 3 pieces (top = 2), Reserve prints "stack full"
and returns the whole state as it was: the queue, the stack, the undo record and
the id counter are unchanged, whatever the queue contains (valid or not). -/
theorem reservar_com_pilha_cheia (r : Nat) (st : Sessao) (ht : st.pilha.top = 2) :
    fazer_reservar r st = (st, [Msg.reservar_pilha_cheia]) := by
  unfold fazer_reservar pilha_esta_cheia
  rw [ht]
  rfl

theorem reservar_com_pilha_cheia_witness :
    valida sessao_tres_reservas ∧ sessao_tres_reservas.pilha.top = 2
    ∧ fazer_reservar 1 sessao_tres_reservas
        = (sessao_tres_reservas, [Msg.reservar_pilha_cheia]) :=
  ⟨by decide, by decide, reservar_com_pilha_cheia 1 sessao_tres_reservas (by decide)⟩

/-- C11: on a valid state whose stack is not empty (any queue count 0..5),
UseReserved followed by Undo gives back the queue's front-to-tail sequence and
the stack's bottom-to-top sequence, both when the replenishment was enqueued
(count below 5) and when it failed because the queue was full (count 5). -/
theorem usar_desfazer_restaura (r : Nat) (st : Sessao) (hv : valida st)
    (ht : 0 ≤ st.pilha.top) :
    fila_mostrar (desfazer (fazer_usar_reservada r st).1).1.fila = fila_mostrar st.fila
    ∧ pilha_base_topo (desfazer (fazer_usar_reservada r st).1).1.pilha
        = pilha_base_topo st.pilha
    ∧ (st.fila.count < 5 → (fazer_usar_reservada r st).1.undo.had_new_enqueued = true)
    ∧ (st.fila.count = 5 → (fazer_usar_reservada r st).1.undo.had_new_enqueued = false) := by
  obtain ⟨h1, h2⟩ := usar_desfazer_sequencias r st hv ht
  have h3 := usar_reservada_registro r st ht
  refine ⟨h1, h2, ?_, ?_⟩
  · intro hc
    rw [h3]
    have : fila_esta_cheia st.fila = false := by
      simp only [fila_esta_cheia, FILA_CAP, beq_eq_false_iff_ne, ne_eq]; omega
    rw [this]; rfl
  · intro hc
    rw [h3]
    have : fila_esta_cheia st.fila = true := by
      simp only [fila_esta_cheia, FILA_CAP, beq_iff_eq]; exact hc
    rw [this]; rfl

theorem usar_desfazer_restaura_witness :
    (valida sessao_duas_reservas ∧ 0 ≤ sessao_duas_reservas.pilha.top
      ∧ sessao_duas_reservas.fila.count = 5
      ∧ fila_mostrar (desfazer (fazer_usar_reservada 3 sessao_duas_reservas).1).1.fila
          = fila_mostrar sessao_duas_reservas.fila
      ∧ pilha_base_topo (desfazer (fazer_usar_reservada 3 sessao_duas_reservas).1).1.pilha
          = pilha_base_topo sessao_duas_reservas.pilha
      ∧ (fazer_usar_reservada 3 sessao_duas_reservas).1.undo.had_new_enqueued = false)
    ∧ (valida sessao_fila_quatro ∧ 0 ≤ sessao_fila_quatro.pilha.top
      ∧ sessao_fila_quatro.fila.count < 5
      ∧ fila_mostrar (desfazer (fazer_usar_reservada 3 sessao_fila_quatro).1).1.fila
          = fila_mostrar sessao_fila_quatro.fila
      ∧ pilha_base_topo (desfazer (fazer_usar_reservada 3 sessao_fila_quatro).1).1.pilha
          = pilha_base_topo sessao_fila_quatro.pilha
      ∧ (fazer_usar_reservada 3 sessao_fila_quatro).1.undo.had_new_enqueued = true) :=
  have h := usar_desfazer_restaura 3 sessao_duas_reservas (by decide) (by decide)
  have k := usar_desfazer_restaura 3 sessao_fila_quatro (by decide) (by decide)
  ⟨⟨by decide, by decide, by decide, h.1, h.2.1, h.2.2.2 (by decide)⟩,
   ⟨by decide, by decide, by decide, k.1, k.2.1, k.2.2.1 (by decide)⟩⟩

/-- C12: when the queue is empty, Play prints "queue empty" and returns the
whole state as it was: queue, stack, id counter and undo record (whatever its
tag) are unchanged and no piece is generated. -/
theorem jogar_com_fila_vazia (r : Nat) (st : Sessao) (hc : st.fila.count = 0) :
    fazer_jogar r st = (st, [Msg.jogar_fila_vazia]) := by
  unfold fazer_jogar fila_esta_vazia
  rw [hc]
  rfl

theorem jogar_com_fila_vazia_witness :
    sessao_vazia.fila.count = 0
    ∧ fazer_jogar 3 sessao_vazia = (sessao_vazia, [Msg.jogar_fila_vazia]) :=
  ⟨by decide, jogar_com_fila_vazia 3 sessao_vazia (by decide)⟩

/-- C13: the circular buffer refines the bounded list.  With L the
front-to-tail sequence of a valid queue, each of the four primitives returns
what the list operation of the specification returns and leaves a queue whose
sequence is the list operation's result.  Spelled out: enqueue at the tail and
at the front fail exactly when L has 5 elements, change nothing then, and
otherwise yield L ++ [p] and p :: L; dequeue at the front and at the tail fail
exactly when L is empty, change nothing then, and otherwise return the head
and leave the tail of L, respectively return the last element and leave L
without it, the front index untouched. -/
theorem fila_refina_lista_limitada (f : Fila) (p out : Peca) (h : fila_valida f) :
    ((fila_enfileirar f p).1 = (lista_enqueue_tail (fila_mostrar f) p).1
      ∧ fila_mostrar (fila_enfileirar f p).2 = (lista_enqueue_tail (fila_mostrar f) p).2
      ∧ ((fila_enfileirar f p).1 = false ↔ (fila_mostrar f).length = 5)
      ∧ ((fila_enfileirar f p).1 = false → (fila_enfileirar f p).2 = f)
      ∧ ((fila_enfileirar f p).1 = true →
          fila_mostrar (fila_enfileirar f p).2 = fila_mostrar f ++ [p]))
    ∧ (resultado (fila_desenfileirar f out).1 (fila_desenfileirar f out).2.2
          = (lista_dequeue_front (fila_mostrar f)).1
      ∧ fila_mostrar (fila_desenfileirar f out).2.1 = (lista_dequeue_front (fila_mostrar f)).2
      ∧ ((fila_desenfileirar f out).1 = false ↔ fila_mostrar f = [])
      ∧ ((fila_desenfileirar f out).1 = false → (fila_desenfileirar f out).2 = (f, out))
      ∧ ((fila_desenfileirar f out).1 = true →
          some (fila_desenfileirar f out).2.2 = (fila_mostrar f).head?
          ∧ fila_mostrar (fila_desenfileirar f out).2.1 = (fila_mostrar f).tail))
    ∧ (resultado (fila_dequeue_tail f out).1 (fila_dequeue_tail f out).2.2
          = (lista_dequeue_tail (fila_mostrar f)).1
      ∧ fila_mostrar (fila_dequeue_tail f out).2.1 = (lista_dequeue_tail (fila_mostrar f)).2
      ∧ ((fila_dequeue_tail f out).1 = false ↔ fila_mostrar f = [])
      ∧ ((fila_dequeue_tail f out).1 = false → (fila_dequeue_tail f out).2 = (f, out))
      ∧ ((fila_dequeue_tail f out).1 = true →
          some (fila_dequeue_tail f out).2.2 = (fila_mostrar f).getLast?
          ∧ fila_mostrar (fila_dequeue_tail f out).2.1 = (fila_mostrar f).dropLast)
      ∧ (fila_dequeue_tail f out).2.1.frente = f.frente)
    ∧ ((fila_enqueue_front f p).1 = (lista_enqueue_front (fila_mostrar f) p).1
      ∧ fila_mostrar (fila_enqueue_front f p).2 = (lista_enqueue_front (fila_mostrar f) p).2
      ∧ ((fila_enqueue_front f p).1 = false ↔ (fila_mostrar f).length = 5)
      ∧ ((fila_enqueue_front f p).1 = false → (fila_enqueue_front f p).2 = f)
      ∧ ((fila_enqueue_front f p).1 = true →
          fila_mostrar (fila_enqueue_front f p).2 = p :: fila_mostrar f)) := by
  obtain ⟨a1, a2⟩ := fila_enfileirar_refina p h
  obtain ⟨b1, b2⟩ := fila_desenfileirar_refina out h
  obtain ⟨c1, c2⟩ := fila_dequeue_tail_refina out h
  obtain ⟨d1, d2⟩ := fila_enqueue_front_refina p h
  refine ⟨⟨a1, a2, ?_, fila_enfileirar_falha f p, ?_⟩,
          ⟨b1, b2, ?_, fila_desenfileirar_falha f out, ?_⟩,
          ⟨c1, c2, ?_, fila_dequeue_tail_falha f out, ?_, fila_dequeue_tail_frente f out⟩,
          ⟨d1, d2, ?_, fila_enqueue_front_falha f p, ?_⟩⟩
  · rw [a1]; unfold lista_enqueue_tail; split <;> simp_all
  · intro hk
    rw [a1] at hk; rw [a2]
    unfold lista_enqueue_tail at hk ⊢
    split <;> simp_all
  · cases hL : fila_mostrar f with
    | nil => rw [hL] at b1; cases hk : (fila_desenfileirar f out).1 <;> simp_all [resultado, lista_dequeue_front]
    | cons x xs => rw [hL] at b1; cases hk : (fila_desenfileirar f out).1 <;> simp_all [resultado, lista_dequeue_front]
  · intro hk
    refine ⟨?_, ?_⟩
    · rw [resultado_true b1 hk]; cases fila_mostrar f <;> rfl
    · rw [b2]; cases fila_mostrar f <;> rfl
  · cases hL : fila_mostrar f with
    | nil => rw [hL] at c1; cases hk : (fila_dequeue_tail f out).1 <;> simp_all [resultado, lista_dequeue_tail]
    | cons x xs =>
      rw [hL] at c1
      cases hk : (fila_dequeue_tail f out).1
      · rw [hk] at c1
        have c3 : (x :: xs).getLast? = none := c1.symm
        exact absurd (List.getLast?_eq_none_iff.mp c3) (List.cons_ne_nil x xs)
      · simp
  · intro hk
    exact ⟨resultado_true c1 hk, c2⟩
  · rw [d1]; unfold lista_enqueue_front; split <;> simp_all
  · intro hk
    rw [d1] at hk; rw [d2]
    unfold lista_enqueue_front at hk ⊢
    split <;> simp_all

theorem fila_refina_lista_limitada_witness :
    fila_valida sessao_tres_reservas.fila
    ∧ (fila_enfileirar sessao_tres_reservas.fila default).1 = false
    ∧ (fila_mostrar (fila_desenfileirar sessao_tres_reservas.fila default).2.1).map Peca.id
        = [5, 6, 7, 8]
    ∧ (fila_mostrar (fila_dequeue_tail sessao_tres_reservas.fila default).2.1).map Peca.id
        = [4, 5, 6, 7] :=
  have h := fila_refina_lista_limitada sessao_tres_reservas.fila default default (by decide)
  ⟨by decide, h.1.1, congrArg (List.map Peca.id) h.2.1.2.1,
   congrArg (List.map Peca.id) h.2.2.1.2.1⟩

/-- C14: in every state reached from a new session by a finite sequence of
play, reserve, use-reserved, swap, invert and undo, the queue count is 5 and
the queue holds exactly 5 pieces. -/
theorem fila_sempre_cheia (i : Indeterminado) (rs : Nat → Nat) (ops : List Op) :
    (sessao_apos ops (nova_sessao i rs)).fila.count = 5
    ∧ (fila_mostrar (sessao_apos ops (nova_sessao i rs)).fila).length = 5 := by
  obtain ⟨hv, hc, _⟩ := sessao_apos_cheia ops (nova_sessao_e_cheia i rs)
  refine ⟨hc, ?_⟩
  have := fila_mostrar_length hv.1
  omega

/-- C16: Undo with a Reserve record on a valid state whose stack is not empty and
whose queue holds 5 pieces: the re-insertion at the front fails, the popped piece
is pushed back, the error line is printed, and the call returns with the queue
and the stack unchanged slot by slot (the replenishment piece stays at the tail)
and the tag reset to None. -/
theorem desfazer_reserve_fila_cheia (st : Sessao) (hv : valida st)
    (ha : st.undo.acao = A_RESERVE) (hc : st.fila.count = 5) (ht : 0 ≤ st.pilha.top) :
    (fila_enqueue_front st.fila (pilha_pop st.pilha default).2.2).1 = false
    ∧ (desfazer st).2 = [Msg.undo_reserve_erro_recolocar]
    ∧ fila_mostrar (desfazer st).1.fila = fila_mostrar st.fila
    ∧ pilha_base_topo (desfazer st).1.pilha = pilha_base_topo st.pilha
    ∧ (desfazer st).1.fila = st.fila
    ∧ (desfazer st).1.pilha = st.pilha
    ∧ (desfazer st).1.undo.acao = A_NENHUMA := by
  obtain ⟨fila, pilha, ⟨ac, pp, hn, ne, sf, sp⟩, ger⟩ := st
  obtain ⟨a, b, c, d, e, fr, ct, rfl, h0, h4, hc0, hc5⟩ := fila_valida_formas hv.1
  obtain ⟨x, y, z, tp, rfl, ht0, ht2⟩ := pilha_valida_formas hv.2
  simp only at ha hc ht
  subst ha hc
  interval_cases fr <;> interval_cases tp <;> refine ⟨?_, ?_, ?_, ?_, ?_, ?_, ?_⟩ <;> rfl

theorem desfazer_reserve_fila_cheia_witness :
    valida sessao_uma_reserva ∧ sessao_uma_reserva.undo.acao = A_RESERVE
    ∧ sessao_uma_reserva.fila.count = 5 ∧ 0 ≤ sessao_uma_reserva.pilha.top
    ∧ (desfazer sessao_uma_reserva).2 = [Msg.undo_reserve_erro_recolocar]
    ∧ (desfazer sessao_uma_reserva).1.fila = sessao_uma_reserva.fila
    ∧ (desfazer sessao_uma_reserva).1.pilha = sessao_uma_reserva.pilha
    ∧ (desfazer sessao_uma_reserva).1.undo.acao = A_NENHUMA :=
  have h := desfazer_reserve_fila_cheia sessao_uma_reserva (by decide) (by decide)
    (by decide) (by decide)
  ⟨by decide, by decide, by decide, by decide, h.2.1, h.2.2.2.2.1, h.2.2.2.2.2.1, h.2.2.2.2.2.2⟩

/-- C17: on every valid state (count 0..5, any front index, stack size 0..3)
Invert leaves a queue whose front-to-tail sequence is the reverse of the
previous one and a stack whose bottom-to-top sequence is the reverse of the
previous one; count, front index and top are unchanged, the record keeps its
payload and gets the tag Invert, and the generator is not called.  Empty
structures are included. -/
theorem invert_inverte_as_sequencias (st : Sessao) (hv : valida st) :
    fila_mostrar (fazer_invert st).1.fila = (fila_mostrar st.fila).reverse
    ∧ pilha_base_topo (fazer_invert st).1.pilha = (pilha_base_topo st.pilha).reverse
    ∧ (fazer_invert st).1.fila.count = st.fila.count
    ∧ (fazer_invert st).1.fila.frente = st.fila.frente
    ∧ (fazer_invert st).1.pilha.top = st.pilha.top
    ∧ (fazer_invert st).1.undo = { st.undo with acao := A_INVERT }
    ∧ (fazer_invert st).1.ger = st.ger
    ∧ (fazer_invert st).2 = [Msg.invert_executada] :=
  ⟨inverter_fila_mostrar hv.1, inverter_pilha_base_topo hv.2, rfl, rfl, rfl, rfl, rfl, rfl⟩

theorem invert_inverte_as_sequencias_witness :
    valida sessao_tres_reservas
    ∧ (fila_mostrar sessao_tres_reservas.fila).map Peca.id = [4, 5, 6, 7, 8]
    ∧ (pilha_base_topo sessao_tres_reservas.pilha).map Peca.id = [1, 2, 3]
    ∧ (fila_mostrar (fazer_invert sessao_tres_reservas).1.fila).map Peca.id = [8, 7, 6, 5, 4]
    ∧ (pilha_base_topo (fazer_invert sessao_tres_reservas).1.pilha).map Peca.id = [3, 2, 1]
    ∧ (fazer_invert sessao_vazia).1.fila.count = 0
    ∧ (fazer_invert sessao_vazia).1.undo.acao = A_INVERT :=
  have h := invert_inverte_as_sequencias sessao_tres_reservas (by decide)
  have h0 := invert_inverte_as_sequencias sessao_vazia (by decide)
  ⟨by decide, by rfl, by rfl, congrArg (List.map Peca.id) h.1,
   congrArg (List.map Peca.id) h.2.1, h0.2.2.1, congrArg UndoInfo.acao h0.2.2.2.2.2.1⟩

/-- C19: on a valid state with a non-empty queue the enqueue inside Play
succeeds: the record gets the tag Play, its piece is the former front, the
replenished flag is true, the recorded replenishment piece is the one generated
and is the last element of the new queue, the queue is the former one without
its front followed by that piece, the count is what it was, and the line printed
is the one of a successful replenishment. -/
theorem jogar_sempre_repoe (r : Nat) (st : Sessao) (hv : valida st) (hc : 1 ≤ st.fila.count) :
    (fila_enfileirar (fila_desenfileirar st.fila default).2.1 (gerarPeca st.ger r).1).1 = true
    ∧ (fazer_jogar r st).1.undo.acao = A_PLAY
    ∧ some (fazer_jogar r st).1.undo.peca_played = (fila_mostrar st.fila).head?
    ∧ (fazer_jogar r st).1.undo.had_new_enqueued = true
    ∧ (fazer_jogar r st).1.undo.new_enqueued = (gerarPeca st.ger r).1
    ∧ (fila_mostrar (fazer_jogar r st).1.fila).getLast? = some (fazer_jogar r st).1.undo.new_enqueued
    ∧ fila_mostrar (fazer_jogar r st).1.fila
        = (fila_mostrar st.fila).tail ++ [(gerarPeca st.ger r).1]
    ∧ (fazer_jogar r st).1.fila.count = st.fila.count
    ∧ (fazer_jogar r st).2
        = [Msg.jogou (fazer_jogar r st).1.undo.peca_played, Msg.jogar_nova (gerarPeca st.ger r).1] := by
  obtain ⟨fila, pilha, undo, ger⟩ := st
  obtain ⟨a, b, c, d, e, fr, ct, rfl, h0, h4, hc0, hc5⟩ := fila_valida_formas hv.1
  simp only at hc
  interval_cases fr <;> interval_cases ct <;>
    refine ⟨?_, ?_, ?_, ?_, ?_, ?_, ?_, ?_, ?_⟩ <;> rfl

theorem jogar_sempre_repoe_witness :
    valida sessao_tres_reservas ∧ 1 ≤ sessao_tres_reservas.fila.count
    ∧ (fazer_jogar 2 sessao_tres_reservas).1.undo.had_new_enqueued = true
    ∧ (fila_mostrar (fazer_jogar 2 sessao_tres_reservas).1.fila).map Peca.id = [5, 6, 7, 8, 9]
    ∧ (fazer_jogar 2 sessao_tres_reservas).1.fila.count = 5 :=
  have h := jogar_sempre_repoe 2 sessao_tres_reservas (by decide) (by decide)
  ⟨by decide, by decide, h.2.2.2.1, congrArg (List.map Peca.id) h.2.2.2.2.2.2.1, h.2.2.2.2.2.2.2.1⟩


/-- C20: on a valid state (five and three slots, 0 <= frente <= 4,
0 <= count <= 5, -1 <= top <= 2) each of the four queue primitives, push, pop,
play, reserve, use-reserved, swap, invert and undo leaves valid structures; run
with every array access and every `%` tested, each of them completes and gives
exactly the result of the unchecked function, so every queue index is in 0..4
and every stack index in 0..2.  In particular the operands frente - 1 + 5 and
frente + count - 1 - i + 5 (for the iterations i < count / 2) are not negative,
and with top = -1 Swap and the undo of Swap return before touching the stack. -/
theorem operacoes_dentro_dos_limites (st : Sessao) (hv : valida st) (p out : Peca) (r : Nat) :
    (fila_valida (fila_enfileirar st.fila p).2
      ∧ fila_valida (fila_desenfileirar st.fila out).2.1
      ∧ fila_valida (fila_dequeue_tail st.fila out).2.1
      ∧ fila_valida (fila_enqueue_front st.fila p).2
      ∧ pilha_valida (pilha_push st.pilha p).2
      ∧ pilha_valida (pilha_pop st.pilha out).2.1
      ∧ valida (fazer_jogar r st).1
      ∧ valida (fazer_reservar r st).1
      ∧ valida (fazer_usar_reservada r st).1
      ∧ valida (fazer_swap st).1
      ∧ valida (fazer_invert st).1
      ∧ valida (desfazer st).1)
    ∧ (fila_enfileirar_verificado st.fila p = some (fila_enfileirar st.fila p)
      ∧ fila_desenfileirar_verificado st.fila out = some (fila_desenfileirar st.fila out)
      ∧ fila_dequeue_tail_verificado st.fila out = some (fila_dequeue_tail st.fila out)
      ∧ fila_enqueue_front_verificado st.fila p = some (fila_enqueue_front st.fila p)
      ∧ pilha_push_verificado st.pilha p = some (pilha_push st.pilha p)
      ∧ pilha_pop_verificado st.pilha out = some (pilha_pop st.pilha out)
      ∧ fazer_jogar_verificado r st = some (fazer_jogar r st)
      ∧ fazer_reservar_verificado r st = some (fazer_reservar r st)
      ∧ fazer_usar_reservada_verificado r st = some (fazer_usar_reservada r st)
      ∧ fazer_swap_verificado st = some (fazer_swap st)
      ∧ fazer_invert_verificado st = some (fazer_invert st)
      ∧ desfazer_verificado st = some (desfazer st))
    ∧ (0 ≤ st.fila.frente - 1 + FILA_CAP
      ∧ ∀ i : Nat, (i : Int) < Int.tdiv st.fila.count 2 →
          0 ≤ st.fila.frente + st.fila.count - 1 - (i : Int) + FILA_CAP)
    ∧ (st.pilha.top = -1 →
        fazer_swap st = (st, [Msg.swap_pilha_vazia])
        ∧ (st.undo.acao = A_SWAP →
            (desfazer st).1.fila = st.fila ∧ (desfazer st).1.pilha = st.pilha
            ∧ (desfazer st).2 = [Msg.undo_swap_erro])) := by
  have hop := operandos_nao_negativos hv.1
  refine ⟨⟨fila_enfileirar_valida p hv.1, fila_desenfileirar_valida out hv.1,
      fila_dequeue_tail_valida out hv.1, fila_enqueue_front_valida p hv.1,
      pilha_push_valida p hv.2, pilha_pop_valida out hv.2,
      fazer_jogar_valida r hv, fazer_reservar_valida r hv, fazer_usar_reservada_valida r hv,
      fazer_swap_valida hv, fazer_invert_valida hv, desfazer_valida hv⟩,
    ⟨fila_enfileirar_verificado_ok p hv.1, fila_desenfileirar_verificado_ok out hv.1,
      fila_dequeue_tail_verificado_ok out hv.1, fila_enqueue_front_verificado_ok p hv.1,
      pilha_push_verificado_ok p hv.2, pilha_pop_verificado_ok out hv.2,
      fazer_jogar_verificado_ok r hv, fazer_reservar_verificado_ok r hv,
      fazer_usar_reservada_verificado_ok r hv, fazer_swap_verificado_ok hv,
      fazer_invert_verificado_ok hv, desfazer_verificado_ok hv⟩,
    ⟨hop.2.2.2.1, fun i hi => (hop.2.2.2.2 i hi).2⟩,
    swap_sem_pilha st⟩

theorem operacoes_dentro_dos_limites_witness :
    valida sessao_invertida
    ∧ valida (desfazer sessao_invertida).1
    ∧ desfazer_verificado sessao_invertida = some (desfazer sessao_invertida)
    ∧ fazer_swap_verificado sessao_invertida = some (fazer_swap sessao_invertida)
    ∧ sessao_inicial.pilha.top = -1
    ∧ fazer_swap sessao_inicial = (sessao_inicial, [Msg.swap_pilha_vazia]) :=
  have h := operacoes_dentro_dos_limites sessao_invertida (by decide) default default 0
  have k := operacoes_dentro_dos_limites sessao_inicial (by decide) default default 0
  ⟨by decide, h.1.2.2.2.2.2.2.2.2.2.2.2, h.2.1.2.2.2.2.2.2.2.2.2.2.2,
   h.2.1.2.2.2.2.2.2.2.2.2.1, by decide, (k.2.2.2 (by decide)).1⟩

end Tetris
